import Mathlib

/-!
Verification development for the agentic core of the ll-html repository.

The Python sources under `src/agents/` are embedded shallowly:
`validation_tools.py` (regex-based analyzers and their orchestrator),
`validation_agent.py` (the bounded repair loop), `tools.py` (the research
tools and the tool registry) and `react_agent.py` (the REACT control loop).
Pure string manipulation is translated directly; every regular expression of
the source is hand-translated into an equivalent scanner over `List Char`
(each pattern is simple enough that greedy/lazy matching is exactly
reproduced; the spots where Python leaves behaviour unspecified, such as
`list(set(...))` ordering, are noted where they occur).  External effects -
the OpenAI client, the network, the Django session store - are parameters:
each call-site outcome is a value of an explicit outcome type, and the code
around the call is translated faithfully.
-/

/-! ## Character and string utilities mirroring Python primitives -/

/-- Whitespace of Python's `str.strip` and of `re`'s `\s` class on ASCII text:
space, tab, newline, carriage return, vertical tab, form feed. -/
def pySpace (c : Char) : Bool :=
  c = ' ' || c = '\t' || c = '\n' || c = '\r' || c = '\x0b' || c = '\x0c'

/-- ASCII word character, `re`'s `\w` on the ASCII inputs considered here. -/
def isWordChar (c : Char) : Bool :=
  ('a' ≤ c && c ≤ 'z') || ('A' ≤ c && c ≤ 'Z') || ('0' ≤ c && c ≤ '9') || c = '_'

/-- A single or double quote, the character class `['\x22]` used throughout
the source's regular expressions. -/
def isQuote (c : Char) : Bool :=
  c = '\'' || c = '"'

/-- Negation of `isQuote`, the class `[^'\x22]`. -/
def nonQuote (c : Char) : Bool :=
  !(isQuote c)

/-- ASCII lowering of one character (Python `str.lower` on ASCII). -/
def lowerChar (c : Char) : Char := c.toLower

/-- ASCII lowering of a string. -/
def lowerStr (s : String) : String := String.mk (s.data.map lowerChar)

/-- Is `pat` a prefix of `s` (case-sensitive)? -/
def prefAt : List Char → List Char → Bool
  | [], _ => true
  | _ :: _, [] => false
  | p :: ps, c :: cs => p = c && prefAt ps cs

/-- Consume the literal `pat` from the front of `s`, case-sensitively. -/
def litAux : List Char → List Char → Option (List Char)
  | [], s => some s
  | _ :: _, [] => none
  | p :: ps, c :: cs => if p = c then litAux ps cs else none

/-- Consume the literal `pat` from the front of `s`, case-sensitively. -/
def lit (pat : String) (s : List Char) : Option (List Char) :=
  litAux pat.data s

/-- Consume the literal `pat` from the front of `s`, ignoring ASCII case
(`re.IGNORECASE`). -/
def litci (pat : String) (s : List Char) : Option (List Char) :=
  litAux (pat.data.map lowerChar) (s.map lowerChar) |>.map fun r => s.drop (s.length - r.length)

/-- Substring test on character lists (Python's `in` operator on `str`). -/
def hasSubL (pat : List Char) : List Char → Bool
  | [] => pat.isEmpty
  | s@(_ :: t) => prefAt pat s || hasSubL pat t

/-- Substring test, `pat in s` in Python. -/
def hasSub (s pat : String) : Bool := hasSubL pat.data s.data

/-- Does some suffix of `s` satisfy `p`?  Used to express `re.search` for the
hand-translated patterns: `p` decides a match anchored at one position. -/
def anySuffix (p : List Char → Bool) : List Char → Bool
  | [] => p []
  | s@(_ :: t) => p s || anySuffix p t

/-- Count occurrences of character `c`, Python's `str.count` for one char. -/
def countChar (s : String) (c : Char) : Nat :=
  (s.data.filter (fun x => x = c)).length

/-- Python's `str.strip()` with no argument. -/
def pyStrip (s : String) : String :=
  String.mk (((s.data.dropWhile pySpace).reverse.dropWhile pySpace).reverse)

/-- Keep the first occurrence of every element.  Stands in for Python's
`list(set(xs))`, whose order CPython leaves unspecified (string hashing is
randomized); only membership and length are relied on downstream. -/
def dedupFirstAux (seen : List String) : List String → List String
  | [] => []
  | x :: xs =>
    if seen.contains x then dedupFirstAux seen xs
    else x :: dedupFirstAux (x :: seen) xs

/-- Keep the first occurrence of every element (see `dedupFirstAux`). -/
def dedupFirst (l : List String) : List String := dedupFirstAux [] l

/-- Non-overlapping left-to-right matching, `re.findall`/`re.finditer`: at
each position try the anchored matcher `m` (returning consumed length and a
value); on a match emit the value and resume after it, else advance one
character.  All matchers used here consume at least one character; the fuel
only certifies termination. -/
def findAllAux {α : Type} (m : List Char → Option (Nat × α)) : Nat → List Char → List α
  | 0, _ => []
  | _ + 1, [] => []
  | fuel + 1, s@(_ :: t) =>
    match m s with
    | some (len, v) =>
      if len = 0 then findAllAux m fuel t else v :: findAllAux m fuel (s.drop len)
    | none => findAllAux m fuel t

/-- `re.findall` over a whole character list (see `findAllAux`). -/
def findAll {α : Type} (m : List Char → Option (Nat × α)) (s : List Char) : List α :=
  findAllAux m (s.length + 1) s

/-- As `findAllAux`, additionally reporting (start, end) offsets, for
`re.finditer` call sites that use `match.start()`/`match.end()`. -/
def findAllPosAux {α : Type} (m : List Char → Option (Nat × α)) :
    Nat → Nat → List Char → List (Nat × Nat × α)
  | 0, _, _ => []
  | _ + 1, _, [] => []
  | fuel + 1, pos, s@(_ :: t) =>
    match m s with
    | some (len, v) =>
      if len = 0 then findAllPosAux m fuel (pos + 1) t
      else (pos, pos + len, v) :: findAllPosAux m fuel (pos + len) (s.drop len)
    | none => findAllPosAux m fuel (pos + 1) t

/-- `re.finditer` with offsets (see `findAllPosAux`). -/
def findAllPos {α : Type} (m : List Char → Option (Nat × α)) (s : List Char) :
    List (Nat × Nat × α) :=
  findAllPosAux m (s.length + 1) 0 s

/-- Consume one quote character. -/
def quoteCh : List Char → Option (List Char)
  | c :: r => if isQuote c then some r else none
  | [] => none

/-- Consume a maximal nonempty run of characters satisfying `p` (a greedy
`X+` whose follower is outside the class, so no backtracking arises). -/
def span1 (p : Char → Bool) (s : List Char) : Option (String × List Char) :=
  let run := s.takeWhile p
  if run.isEmpty then none else some (String.mk run, s.drop run.length)

/-- Consume `\s*`. -/
def wsStar (s : List Char) : List Char := s.dropWhile pySpace

/-! ## `validation_tools.py`: HTMLStructureValidator -/

/-- Result shape shared by the three analyzers of `validation_tools.py`
(`success`, `issues`, `suggestions`, `severity`; the dependency checker also
returns `library_imports`).  The analyzers' `except` arms are unreachable in
the embedding (their bodies are pure string work), so `success` is `true`. -/
structure AnalyzerResult where
  success : Bool
  issues : List String
  suggestions : List String
  severity : String
  libraryImports : List String := []
deriving DecidableEq, Repr

/-- Is there a `>` ahead (terminating `[^>]*>` of a tag pattern)? -/
def hasGt (s : List Char) : Bool :=
  !((s.dropWhile (fun c => c != '>')).isEmpty)

/-- Anchored match of `<html[^>]*>` (IGNORECASE), validation_tools.py:24. -/
def mHtmlOpenAt (s : List Char) : Bool :=
  match litci "<html" s with
  | some r => hasGt r
  | none => false

/-- `re.search(r'<html[^>]*>', s, re.IGNORECASE)`. -/
def searchHtmlOpen (s : List Char) : Bool := anySuffix mHtmlOpenAt s

/-- Anchored match of `<head[^>]*>.*?</head>` (DOTALL, IGNORECASE) or the
`<body>` analogue: open tag, first `>`, then the closing literal anywhere
after (DOTALL lets `.*?` cross lines), validation_tools.py:28,32. -/
def mSectionAt (openTag closeTag : String) (s : List Char) : Bool :=
  match litci openTag s with
  | some r =>
    match r.dropWhile (fun c => c != '>') with
    | '>' :: r2 => hasSubL (closeTag.data.map lowerChar) (r2.map lowerChar)
    | _ => false
  | none => false

/-- `re.search(r'<head[^>]*>.*?</head>', s, re.DOTALL | re.IGNORECASE)`. -/
def searchHeadSection (s : List Char) : Bool := anySuffix (mSectionAt "<head" "</head>") s

/-- `re.search(r'<body[^>]*>.*?</body>', s, re.DOTALL | re.IGNORECASE)`. -/
def searchBodySection (s : List Char) : Bool := anySuffix (mSectionAt "<body" "</body>") s

/-- Anchored match of `L\.map\(['\x22]([^'\x22]+)['\x22]` (no flags, no
whitespace allowed), validation_tools.py:37. -/
def mLmapPlain (s : List Char) : Option (Nat × String) := do
  let r1 ← lit "L.map(" s
  let r2 ← quoteCh r1
  let (cap, r3) ← span1 nonQuote r2
  let r4 ← quoteCh r3
  pure (s.length - r4.length, cap)

/-- Anchored match of `id=['\x22]?ID['\x22]?` where `ID` is the literal
element id (the trailing optional quote always matches), the pattern of
validation_tools.py:39,46,342. -/
def idRefAt (id : String) (s : List Char) : Bool :=
  match lit "id=" s with
  | some r =>
    prefAt id.data r ||
      (match r with
       | c :: r2 => isQuote c && prefAt id.data r2
       | [] => false)
  | none => false

/-- `re.search(f"id=['\x22]?{id}['\x22]?", hay)`. -/
def searchIdRef (hay : List Char) (id : String) : Bool := anySuffix (idRefAt id) hay

/-- Anchored match of `getContext\(['\x22]2d['\x22]` (no whitespace --
the HTML validator's variant), returning consumed length. -/
def mGetContextPlain (s : List Char) : Option Nat := do
  let r1 ← lit "getContext(" s
  let r2 ← quoteCh r1
  let r3 ← lit "2d" r2
  let r4 ← quoteCh r3
  pure (s.length - r4.length)

/-- Lazy `.*?` (no DOTALL: cannot cross a newline) up to the earliest
`getContext\(['\x22]2d['\x22]`; returns total consumed length. -/
def scanOnLine : List Char → Option Nat
  | [] => none
  | s@(c :: t) =>
    match mGetContextPlain s with
    | some k => some k
    | none => if c = '\n' then none else (scanOnLine t).map (fun k => k + 1)

/-- Anchored match of
`getElementById\(['\x22]([^'\x22]+)['\x22].*?getContext\(['\x22]2d['\x22]`
(validation_tools.py:44): capture the element id, then lazily reach the
`getContext('2d')` call on the same line. -/
def mChartRef (s : List Char) : Option (Nat × String) := do
  let r1 ← lit "getElementById(" s
  let r2 ← quoteCh r1
  let (cap, r3) ← span1 nonQuote r2
  let r4 ← quoteCh r3
  let k ← scanOnLine r4
  pure ((s.length - r4.length) + k, cap)

/-- Scan within `[^>]*` for `id=['\x22]?ID['\x22]?` (the canvas check's
`<canvas[^>]*id=...` tail): stop at `>`, advance otherwise. -/
def canvasIdScan (id : String) : List Char → Bool
  | [] => false
  | s@(c :: t) => idRefAt id s || (if c = '>' then false else canvasIdScan id t)

/-- Anchored match of `<canvas[^>]*id=['\x22]?ID['\x22]?`,
validation_tools.py:46. -/
def mCanvasAt (id : String) (s : List Char) : Bool :=
  match lit "<canvas" s with
  | some r => canvasIdScan id r
  | none => false

/-- `re.search(f"<canvas[^>]*id=['\x22]?{id}['\x22]?", hay)`. -/
def searchCanvasId (hay : List Char) (id : String) : Bool := anySuffix (mCanvasAt id) hay

/-- The alternation `(container|container-fluid)` followed by one required
non-quote character `[^'\x22]` (as in the source pattern -- note a quote
directly after `container` makes the match fail), validation_tools.py:52. -/
def containerAt (s : List Char) : Bool :=
  match lit "container" s with
  | some r =>
    (match r with
     | c :: _ => nonQuote c
     | [] => false) ||
      (match lit "-fluid" r with
       | some r2 =>
         match r2 with
         | c :: _ => nonQuote c
         | [] => false
       | none => false)
  | none => false

/-- Scan within `[^'\x22]*` for the `container` alternation: stop at a
quote, advance otherwise. -/
def containerScan : List Char → Bool
  | [] => false
  | s@(c :: t) => containerAt s || (if isQuote c then false else containerScan t)

/-- Anchored match of
`class=['\x22][^'\x22]*(container|container-fluid)[^'\x22]`. -/
def mClassContainerAt (s : List Char) : Bool :=
  match lit "class=" s with
  | some (c :: r2) => isQuote c && containerScan r2
  | _ => false

/-- `re.search(r'class=[...](container|container-fluid)[...]', s)`. -/
def searchClassContainer (s : List Char) : Bool := anySuffix mClassContainerAt s

/-- Anchored match of the tag pattern `<(/?)(\w+)[^>]*>`
(validation_tools.py:81): optional `/`, word-character name, rest of the tag
up to `>`.  The name is lowered as the consuming loop does. -/
def mTag (s : List Char) : Option (Nat × (Bool × String)) :=
  match s with
  | '<' :: r1 =>
    let p : Bool × List Char := match r1 with
      | '/' :: r => (true, r)
      | _ => (false, r1)
    match span1 isWordChar p.2 with
    | some (name, r3) =>
      match r3.dropWhile (fun c => c != '>') with
      | '>' :: r5 => some (s.length - r5.length, (p.1, lowerStr name))
      | _ => none
    | none => none
  | _ => none

/-- `re.findall(r'<(/?)(\w+)[^>]*>', html, re.IGNORECASE)` (the pattern has
no cased literals, so IGNORECASE is inert). -/
def findTags (s : List Char) : List (Bool × String) := findAll mTag s

/-- Self-closing tags skipped by `_find_unclosed_tags`. -/
def voidTags : List String := ["img", "br", "hr", "meta", "link", "input"]

/-- The stack walk of `_find_unclosed_tags` (validation_tools.py:87-103).
The Lean stack's head is Python's `stack[-1]`. -/
def tagStackScan : List (Bool × String) → List String → List String → (List String × List String)
  | [], stack, unclosed => (unclosed, stack)
  | (isClosing, name) :: rest, stack, unclosed =>
    if voidTags.contains name then tagStackScan rest stack unclosed
    else if isClosing then
      match stack with
      | top :: stackRest =>
        if top = name then tagStackScan rest stackRest unclosed
        else if unclosed.contains name then tagStackScan rest stack unclosed
        else tagStackScan rest stack (unclosed ++ [name])
      | [] =>
        if unclosed.contains name then tagStackScan rest [] unclosed
        else tagStackScan rest [] (unclosed ++ [name])
    else tagStackScan rest (name :: stack) unclosed

/-- `_find_unclosed_tags`: mismatched closers plus whatever is left on the
stack, deduplicated.  The source's final `list(set(unclosed))` has
unspecified order; first-occurrence order is used (the remaining stack is
appended bottom-first as `unclosed.extend(stack)` does). -/
def findUnclosedTags (s : List Char) : List String :=
  let p := tagStackScan (findTags s) [] []
  dedupFirst (p.1 ++ p.2.reverse)

/-- `HTMLStructureValidator.validate` (validation_tools.py:17-76): document
structure, Leaflet map ids, Chart.js canvases, Bootstrap container usage,
unclosed tags; severity high when more than 3 issues, medium when any. -/
def htmlStructureValidate (htmlContent : String) : AnalyzerResult :=
  let s := htmlContent.data
  let p1 : List String × List String :=
    if searchHtmlOpen s then ([], [])
    else (["Missing <html> tag"], ["Add proper HTML document structure"])
  let p2 : List String × List String :=
    if searchHeadSection s then ([], [])
    else (["Missing or empty <head> section"], ["Add <head> with meta tags and title"])
  let p3 : List String × List String :=
    if searchBodySection s then ([], [])
    else (["Missing or empty <body> section"], ["Add <body> with content"])
  let mapMissing := (findAll mLmapPlain s).filter (fun id => !searchIdRef s id)
  let mapIssues := mapMissing.map
    (fun id => "Leaflet map references element '" ++ id ++ "' but no element with that ID exists")
  let mapSuggs := mapMissing.map
    (fun id => "Add <div id='" ++ id ++ "'></div> for the map")
  let chartMissing := (findAll mChartRef s).filter (fun id => !searchCanvasId s id)
  let chartIssues := chartMissing.map
    (fun id => "Chart.js references canvas '" ++ id ++ "' but no canvas element with that ID exists")
  let chartSuggs := chartMissing.map
    (fun id => "Add <canvas id='" ++ id ++ "'></canvas> for the chart")
  let pBoot : List String × List String :=
    if hasSub htmlContent "class=" && hasSub (lowerStr htmlContent) "bootstrap"
        && !searchClassContainer s then
      (["Using Bootstrap but missing container structure"],
       ["Wrap content in Bootstrap container: <div class='container'>"])
    else ([], [])
  let unclosed := findUnclosedTags s
  let unIssues := unclosed.map (fun t => "Potentially unclosed tag: " ++ t)
  let unSuggs := unclosed.map (fun t => "Ensure " ++ t ++ " tags are properly closed")
  let issues := p1.1 ++ p2.1 ++ p3.1 ++ mapIssues ++ chartIssues ++ pBoot.1 ++ unIssues
  let suggestions := p1.2 ++ p2.2 ++ p3.2 ++ mapSuggs ++ chartSuggs ++ pBoot.2 ++ unSuggs
  { success := true
    issues := issues
    suggestions := suggestions
    severity := if issues.length > 3 then "high" else if issues.length > 0 then "medium" else "low" }

/-! ## `validation_tools.py`: JavaScriptValidator -/

/-- Signed difference of two counts (`js.count('(') - js.count(')')`). -/
def intDiff (a b : Nat) : Int := (a : Int) - b

/-- One unmatched-delimiter issue string of `_check_basic_syntax`
(validation_tools.py:156-161). -/
def unmatchedIssue (label : String) (d : Int) : String :=
  "Unmatched " ++ label ++ ": " ++ toString d.natAbs ++ " "
    ++ (if d > 0 then "opening" else "closing") ++ " " ++ label

/-- Anchored match of `(var|let|const|return)\s+`: one of the keywords
immediately followed by a whitespace character. -/
def lineKwAt (s : List Char) : Bool :=
  (match lit "var" s with | some (c :: _) => pySpace c | _ => false) ||
  (match lit "let" s with | some (c :: _) => pySpace c | _ => false) ||
  (match lit "const" s with | some (c :: _) => pySpace c | _ => false) ||
  (match lit "return" s with | some (c :: _) => pySpace c | _ => false)

/-- `re.search(r'(var|let|const|return)\s+', line)`. -/
def lineKwSearch (s : List Char) : Bool := anySuffix lineKwAt s

/-- `line.endswith((';', '\x7b', '\x7d', ')', ']'))` on a nonempty line:
its last character is one of the five. -/
def endsWithAnyOf (l : List Char) (cs : List Char) : Bool :=
  match l.getLast? with
  | some c => cs.contains c
  | none => false

/-- `line.startswith(('*', '//', '/*'))`. -/
def startsCommentish (l : List Char) : Bool :=
  match l with
  | '*' :: _ => true
  | '/' :: '/' :: _ => true
  | '/' :: '*' :: _ => true
  | _ => false

/-- Python's `js.split('\n')` over a character list (structural, since
`String.splitOn` does not reduce definitionally). -/
def splitLinesAux : List Char → List (List Char)
  | [] => [[]]
  | c :: t =>
    match splitLinesAux t with
    | line :: rest => if c = '\n' then [] :: line :: rest else (c :: line) :: rest
    | [] => [[]]

/-- Python's `str.strip()` on a character list. -/
def pyStripL (l : List Char) : List Char :=
  ((l.dropWhile pySpace).reverse.dropWhile pySpace).reverse

/-- The missing-semicolon heuristic of `_check_basic_syntax`
(validation_tools.py:164-169): per stripped line (1-based numbering), flag
lines that neither end in a closer nor start like a comment but contain a
declaration keyword. -/
def semicolonIssues (js : String) : List String :=
  (splitLinesAux js.data).enum.filterMap (fun p =>
    let l := pyStripL p.2
    if !l.isEmpty && !endsWithAnyOf l [';', '{', '}', ')', ']'] && !startsCommentish l
        && lineKwSearch l
        && !(match l.getLast? with | some c => c = ';' | none => false) then
      some ("Line " ++ toString (p.1 + 1) ++ ": Possible missing semicolon")
    else none)

/-- Anchored match of `L\.map\s*\(\s*['\x22]([^'\x22]+)['\x22]` (the
whitespace-tolerant variant used by the JS validator and the dependency
checker). -/
def mLmapWs (s : List Char) : Option (Nat × String) := do
  let r1 ← lit "L.map" s
  let r2 ← lit "(" (wsStar r1)
  let r3 ← quoteCh (wsStar r2)
  let (cap, r4) ← span1 nonQuote r3
  let r5 ← quoteCh r4
  pure (s.length - r5.length, cap)

/-- Anchored match of `getElementById\s*\(\s*['\x22]([^'\x22]+)['\x22]`. -/
def mGetByIdWs (s : List Char) : Option (Nat × String) := do
  let r1 ← lit "getElementById" s
  let r2 ← lit "(" (wsStar r1)
  let r3 ← quoteCh (wsStar r2)
  let (cap, r4) ← span1 nonQuote r3
  let r5 ← quoteCh r4
  pure (s.length - r5.length, cap)

/-- Anchored match of `querySelector\s*\(\s*['\x22]#([^'\x22]+)['\x22]`. -/
def mQuerySelWs (s : List Char) : Option (Nat × String) := do
  let r1 ← lit "querySelector" s
  let r2 ← lit "(" (wsStar r1)
  let r3 ← quoteCh (wsStar r2)
  let r4 ← lit "#" r3
  let (cap, r5) ← span1 nonQuote r4
  let r6 ← quoteCh r5
  pure (s.length - r6.length, cap)

/-- Anchored match of `getContext\s*\(\s*['\x22]2d['\x22]` (the JS
validator's whitespace-tolerant variant). -/
def mGetContextWsAt (s : List Char) : Bool :=
  (do
    let r1 ← lit "getContext" s
    let r2 ← lit "(" (wsStar r1)
    let r3 ← quoteCh (wsStar r2)
    let r4 ← lit "2d" r3
    let _ ← quoteCh r4
    pure ()).isSome

/-- `re.search(r'getContext\s*\(\s*[...]2d[...]', js)`. -/
def searchGetContextWs (s : List Char) : Bool := anySuffix mGetContextWsAt s

/-- `_check_library_usage` (validation_tools.py:173-204): Leaflet
suggestions, Chart.js context check, jQuery detection, duplicate pre-loaded
library detection.  Returns (issues, suggestions). -/
def jsLibraryChecks (js : String) : List String × List String :=
  let suggLeaflet :=
    if hasSub js "L." then
      let ids := findAll mLmapWs js.data
      -- the guarding `re.search` succeeds exactly when the findall is nonempty
      ids.map (fun id => "Ensure element with ID '" ++ id ++ "' exists for Leaflet map")
    else []
  let chartPart : List String × List String :=
    if hasSub js "new Chart" && !searchGetContextWs js.data then
      (["Chart.js usage found but missing canvas context setup"],
       ["Add: const ctx = document.getElementById('chartId').getContext('2d');"])
    else ([], [])
  let jqPart : List String × List String :=
    if hasSub js "$(" || hasSub js "jQuery" then
      (["jQuery usage detected - Bootstrap and vanilla JS should be sufficient"],
       ["Use vanilla JavaScript or Bootstrap JS instead of jQuery"])
    else ([], [])
  let dupPart : List String × List String :=
    if hasSub js "<script" && (hasSub js "leaflet" || hasSub js "chart.js" || hasSub js "bootstrap") then
      (["Attempting to load libraries that are already pre-loaded"],
       ["Remove <script> tags - libraries are already loaded in templates"])
    else ([], [])
  (chartPart.1 ++ jqPart.1 ++ dupPart.1,
   suggLeaflet ++ chartPart.2 ++ jqPart.2 ++ dupPart.2)

/-- Tail of `\bconsole\.log\s*\(\s*[^)]*undefined[^)]*\)` after the `(`:
reach `undefined` without crossing `)`, then require a later `)`. -/
def parenScanUndef : List Char → Bool
  | [] => false
  | s@(c :: t) =>
    (match lit "undefined" s with
     | some r => !((r.dropWhile (fun x => x != ')')).isEmpty)
     | none => false) ||
      (if c = ')' then false else parenScanUndef t)

/-- Anchored match (after a word boundary) of
`console\.log\s*\(\s*[^)]*undefined[^)]*\)`. -/
def mConsoleUndefAt (s : List Char) : Bool :=
  match lit "console.log" s with
  | some r1 =>
    match wsStar r1 with
    | '(' :: r2 => parenScanUndef r2
    | _ => false
  | none => false

/-- Word-boundary-tracking scan for the `console.log(...undefined...)`
pattern (`\b` requires the previous character to be a non-word character or
the string start). -/
def consoleScan : Option Char → List Char → Bool
  | _, [] => false
  | prev, s@(c :: t) =>
    ((match prev with | none => true | some p => !isWordChar p) && mConsoleUndefAt s)
      || consoleScan (some c) t

/-- `re.search(r'\bconsole\.log\s*\(\s*[^)]*undefined[^)]*\)', js)`. -/
def searchConsoleUndef (js : String) : Bool := consoleScan none js.data

/-- Anchored match of `fetch\s*\([^)]+\)` (validation_tools.py:215). -/
def mFetchCallAt (s : List Char) : Bool :=
  match lit "fetch" s with
  | some r1 =>
    match wsStar r1 with
    | '(' :: r2 =>
      match span1 (fun c => c != ')') r2 with
      | some (_, r3) =>
        match r3 with
        | ')' :: _ => true
        | _ => false
      | none => false
    | _ => false
  | none => false

/-- `_check_common_errors` (validation_tools.py:206-223): logged `undefined`
and `fetch()` without any `.catch`/`try` in the script (at most one issue,
the loop breaks after the first). -/
def jsCommonErrors (js : String) : List String :=
  (if searchConsoleUndef js then ["Logging undefined variables detected"] else []) ++
  (if anySuffix mFetchCallAt js.data && !hasSub js ".catch" && !hasSub js "try" then
    ["fetch() calls without error handling detected"]
  else [])

/-- `JavaScriptValidator.validate` (validation_tools.py:112-136): delimiter
balance, missing semicolons, library usage, common errors; severity high
when more than 2 issues, medium when any. -/
def javascriptValidate (js : String) : AnalyzerResult :=
  let braces := intDiff (countChar js '{') (countChar js '}')
  let brackets := intDiff (countChar js '[') (countChar js ']')
  let parens := intDiff (countChar js '(') (countChar js ')')
  let basicIssues :=
    (if braces ≠ 0 then [unmatchedIssue "braces" braces] else []) ++
    (if brackets ≠ 0 then [unmatchedIssue "brackets" brackets] else []) ++
    (if parens ≠ 0 then [unmatchedIssue "parentheses" parens] else []) ++
    semicolonIssues js
  let libPart := jsLibraryChecks js
  let issues := basicIssues ++ libPart.1 ++ jsCommonErrors js
  { success := true
    issues := issues
    suggestions := libPart.2
    severity := if issues.length > 2 then "high" else if issues.length > 0 then "medium" else "low" }

/-! ## `validation_tools.py`: DependencyChecker -/

/-- Scan within `[^>]*` for `ATTR['\x22]([^'\x22]+)['\x22]` (the
`src=`/`href=` tail of the import patterns, IGNORECASE).  The `[^>]*` is
greedy, so Python backtracks from the longest gap: among the candidate
positions before the first `>` the LAST one whose tail matches wins
(e.g. `<script data-src="a" src="b">` captures `b`, not `a`); returns
consumed length and the captured URL. -/
def attrScan (attr : String) : List Char → Option (Nat × String)
  | [] => none
  | s@(c :: t) =>
    if c = '>' then none
    else
      match attrScan attr t with
      | some p => some (p.1 + 1, p.2)
      | none =>
        (do
          let r1 ← litci attr s
          let r2 ← quoteCh r1
          let (cap, r3) ← span1 nonQuote r2
          let r4 ← quoteCh r3
          pure (s.length - r4.length, cap) : Option (Nat × String))

/-- Anchored match of `<TAG[^>]*ATTR['\x22]([^'\x22]+)['\x22]` (IGNORECASE),
the import patterns of validation_tools.py:281,285. -/
def mTagAttr (tag attr : String) (s : List Char) : Option (Nat × String) := do
  let r1 ← litci tag s
  let p ← attrScan attr r1
  pure ((s.length - r1.length) + p.1, p.2)

/-- `_find_library_imports` (validation_tools.py:276-288): script `src`
URLs then link `href` URLs. -/
def findLibraryImports (content : String) : List String :=
  findAll (mTagAttr "<script" "src=") content.data
    ++ findAll (mTagAttr "<link" "href=") content.data

/-- `_extract_library_name` (validation_tools.py:306-317). -/
def extractLibraryName (url : String) : Option String :=
  let u := lowerStr url
  if hasSub u "leaflet" then some "Leaflet"
  else if hasSub u "chart" then some "Chart.js"
  else if hasSub u "bootstrap" then some "Bootstrap"
  else if hasSub u "font-awesome" || hasSub u "fontawesome" then some "Font Awesome"
  else none

/-- `_find_duplicates` (validation_tools.py:290-304): each import whose
library name was already seen contributes one entry. -/
def findDuplicatesAux : List String → List String → List String
  | _, [] => []
  | seen, u :: rest =>
    match extractLibraryName u with
    | some lib =>
      if seen.contains lib then lib :: findDuplicatesAux seen rest
      else findDuplicatesAux (lib :: seen) rest
    | none => findDuplicatesAux seen rest

/-- `_find_duplicates` over an import list. -/
def findDuplicates (imports : List String) : List String := findDuplicatesAux [] imports

/-- `_find_element_references` (validation_tools.py:319-335):
`getElementById`, `L.map` and `querySelector('#...')` ids, deduplicated
(`list(set(ids))`, order unspecified in CPython; first occurrence here). -/
def findElementReferences (js : String) : List String :=
  dedupFirst (findAll mGetByIdWs js.data ++ findAll mLmapWs js.data
    ++ findAll mQuerySelWs js.data)

/-- `_check_missing_elements` (validation_tools.py:337-345). -/
def checkMissingElements (ids : List String) (html : String) : List String :=
  ids.filter (fun id => !searchIdRef html.data id)

/-- `_uses_bootstrap_classes` (validation_tools.py:347-350). -/
def usesBootstrapClasses (html : String) : Bool :=
  ["container", "row", "col-", "btn", "card", "navbar", "alert", "modal"].any
    (fun cls => hasSub html cls)

/-- `_has_bootstrap` (validation_tools.py:352-354). -/
def hasBootstrap (content : String) : Bool := hasSub (lowerStr content) "bootstrap"

/-- `DependencyChecker.validate` (validation_tools.py:229-265): duplicate
imports, missing element ids, Bootstrap classes without Bootstrap; severity
high when more than 2 issues, medium when any. -/
def dependencyValidate (htmlContent cssContent jsContent : String) : AnalyzerResult :=
  let full := htmlContent ++ cssContent ++ jsContent
  let imports := findLibraryImports full
  let dups := findDuplicates imports
  let dupIssues := dups.map (fun lib => "Duplicate import of " ++ lib ++ " detected")
  let dupSuggs := dups.map (fun lib => "Remove duplicate " ++ lib ++ " imports - library is pre-loaded")
  let missing := checkMissingElements (findElementReferences jsContent) htmlContent
  let missIssues := missing.map
    (fun id => "JavaScript references element '" ++ id ++ "' but element not found in HTML")
  let missSuggs := missing.map (fun id => "Add element with id='" ++ id ++ "' to HTML")
  let bootPart : List String × List String :=
    if usesBootstrapClasses htmlContent && !hasBootstrap full then
      (["Bootstrap CSS classes used but Bootstrap not detected"],
       ["Bootstrap is pre-loaded - ensure template is being used correctly"])
    else ([], [])
  let issues := dupIssues ++ missIssues ++ bootPart.1
  { success := true
    issues := issues
    suggestions := dupSuggs ++ missSuggs ++ bootPart.2
    severity := if issues.length > 2 then "high" else if issues.length > 0 then "medium" else "low"
    libraryImports := imports }

/-! ## `validation_tools.py`: ValidationOrchestrator -/

/-- The five-field generated content mapping (`title`, `description`,
`main_content`, `custom_css`, `custom_js`), react_agent.py:814 and
validation_tools.py:365-373. -/
structure GenContent where
  title : String
  description : String
  mainContent : String
  customCss : String
  customJs : String
deriving DecidableEq, Repr

/-- The synthetic full-HTML document assembled by
`validate_generated_content` (validation_tools.py:376-387), with the
f-string's exact indentation and newlines. -/
def buildFullHtml (c : GenContent) : String :=
  "\n        <html>\n        <head>\n            <title>" ++ c.title
    ++ "</title>\n            <style>" ++ c.customCss
    ++ "</style>\n        </head>\n        <body>\n            " ++ c.mainContent
    ++ "\n            <script>" ++ c.customJs
    ++ "</script>\n        </body>\n        </html>\n        "

/-- The aggregate result of `validate_generated_content`
(validation_tools.py:409-417). -/
structure VResult where
  success : Bool
  overallSeverity : String
  totalIssues : Nat
  issues : List String
  suggestions : List String
  htmlValidation : AnalyzerResult
  jsValidation : AnalyzerResult
  dependencyValidation : AnalyzerResult
  needsFixing : Bool
deriving DecidableEq, Repr

/-- One step of the severity aggregation loop (validation_tools.py:405-407):
`if severity == "high" or (severity == "medium" and max_severity == "low"):
max_severity = severity`. -/
def sevStep (maxSev sev : String) : String :=
  if sev = "high" || (sev = "medium" && maxSev = "low") then sev else maxSev

/-- `ValidationOrchestrator.validate_generated_content`
(validation_tools.py:365-417): run the three analyzers on the synthetic
document, concatenate issues/suggestions of the successful ones in dict
insertion order (html, js, dependency) and fold their severities. -/
def validateGeneratedContent (c : GenContent) : VResult :=
  let fullHtml := buildFullHtml c
  let hr := htmlStructureValidate fullHtml
  let jr := javascriptValidate c.customJs
  let dr := dependencyValidate fullHtml c.customCss c.customJs
  let allIssues := (if hr.success then hr.issues else [])
    ++ (if jr.success then jr.issues else [])
    ++ (if dr.success then dr.issues else [])
  let allSuggestions := (if hr.success then hr.suggestions else [])
    ++ (if jr.success then jr.suggestions else [])
    ++ (if dr.success then dr.suggestions else [])
  let s1 := if hr.success then sevStep "low" hr.severity else "low"
  let s2 := if jr.success then sevStep s1 jr.severity else s1
  let s3 := if dr.success then sevStep s2 dr.severity else s2
  { success := true
    overallSeverity := s3
    totalIssues := allIssues.length
    issues := allIssues
    suggestions := allSuggestions
    htmlValidation := hr
    jsValidation := jr
    dependencyValidation := dr
    needsFixing := decide (0 < allIssues.length) }

/-! ## `validation_agent.py`: ValidationAgent -/

/-- A five-field JSON object as a model response may deliver it: any field
can be absent (`_generate_fixes` and `_generate_final_html` then default
it). -/
structure RawContent where
  title : Option String := none
  description : Option String := none
  mainContent : Option String := none
  customCss : Option String := none
  customJs : Option String := none
deriving DecidableEq, Repr

/-- The field-defaulting loop of `_generate_fixes`
(validation_agent.py:176-179): a missing field takes the value of the
content passed in (`html_content.get(field, "")`). -/
def applyDefaultsFrom (raw : RawContent) (base : GenContent) : GenContent :=
  { title := raw.title.getD base.title
    description := raw.description.getD base.description
    mainContent := raw.mainContent.getD base.mainContent
    customCss := raw.customCss.getD base.customCss
    customJs := raw.customJs.getD base.customJs }

/-- The field-defaulting loop of `_generate_final_html`
(react_agent.py:813-817): a missing field becomes the empty string. -/
def applyDefaultsEmpty (raw : RawContent) : GenContent :=
  { title := raw.title.getD ""
    description := raw.description.getD ""
    mainContent := raw.mainContent.getD ""
    customCss := raw.customCss.getD ""
    customJs := raw.customJs.getD "" }

/-- `ValidationAgent._attempt_fixes` (validation_agent.py:83-104).
`fixResponses i` is the outcome of the model call of attempt `i`
(`_generate_fixes`): `none` when the call raised, its output failed to
parse, or was empty (all of which make the source skip to the next
attempt), `some raw` its parsed five-field object.  A fix is returned as
soon as its quick validation strictly lowers `total_issues` below the
current `validation_result`; otherwise the validation result and the
content are rebased onto the rejected fix for the next attempt.  `remaining`
counts down from `max_fix_attempts = 2`. -/
def attemptFixes (fixResponses : Nat → Option RawContent) :
    Nat → Nat → VResult → GenContent → Option GenContent
  | _, 0, _, _ => none
  | idx, remaining + 1, valRes, content =>
    match fixResponses idx with
    | none => attemptFixes fixResponses (idx + 1) remaining valRes content
    | some raw =>
      let fixedContent := applyDefaultsFrom raw content
      let quickValidation := validateGeneratedContent fixedContent
      if quickValidation.totalIssues < valRes.totalIssues then some fixedContent
      else attemptFixes fixResponses (idx + 1) remaining quickValidation fixedContent

/-- `max_fix_attempts` (validation_agent.py:29). -/
def maxFixAttempts : Nat := 2

/-- The result of `ValidationAgent.validate_and_fix`.  The source returns a
dict whose keys differ per branch; the record carries the union
(`initialValidation` holds `validation_result`/`original_validation`,
`finalValidation` is present only when a fix was accepted). -/
structure FixOutcome where
  success : Bool
  contentFixed : Bool
  htmlContent : GenContent
  initialValidation : VResult
  finalValidation : Option VResult
  message : String
deriving DecidableEq, Repr

/-- `ValidationAgent.validate_and_fix` (validation_agent.py:31-81):
validate, return unchanged content when nothing needs fixing, otherwise
attempt fixes when a client is available and re-validate an accepted fix.
`clientAvailable` mirrors `self.client` being non-None. -/
def validateAndFix (clientAvailable : Bool) (fixResponses : Nat → Option RawContent)
    (htmlContent : GenContent) : FixOutcome :=
  let validationResult := validateGeneratedContent htmlContent
  if !validationResult.needsFixing then
    { success := true
      contentFixed := false
      htmlContent := htmlContent
      initialValidation := validationResult
      finalValidation := none
      message := "Content passed all validations" }
  else
    let fallback : FixOutcome :=
      { success := true
        contentFixed := false
        htmlContent := htmlContent
        initialValidation := validationResult
        finalValidation := none
        message := "Found " ++ toString validationResult.totalIssues
          ++ " issues but could not auto-fix" }
    if clientAvailable then
      match attemptFixes fixResponses 0 maxFixAttempts validationResult htmlContent with
      | some fixedContent =>
        let revalidation := validateGeneratedContent fixedContent
        { success := true
          contentFixed := true
          htmlContent := fixedContent
          initialValidation := validationResult
          finalValidation := some revalidation
          message := "Fixed "
            ++ toString (intDiff validationResult.totalIssues revalidation.totalIssues)
            ++ " issues" }
      | none => fallback
    else fallback

/-! ## `tools.py`: WebSearchTool -/

/-- Authority part of an absolute `http(s)` URL (`urlparse(url).netloc` for
the URL shapes this code feeds it: every call site passes either an
absolute `http(s)://` URL or a string without a scheme, for which the
netloc is empty). -/
def urlNetloc (url : String) : String :=
  match lit "http://" url.data with
  | some r => String.mk (r.takeWhile (fun c => c != '/' && c != '?' && c != '#'))
  | none =>
    match lit "https://" url.data with
    | some r => String.mk (r.takeWhile (fun c => c != '/' && c != '?' && c != '#'))
    | none => ""

/-- One raw result of the search provider (`ddgs` text search). -/
structure SearchItem where
  title : String
  body : String
  href : String
deriving DecidableEq, Repr

/-- Outcome of the provider call inside `WebSearchTool.execute`: the
provider either raises or yields a result list (already capped by the
`max_results=limit` argument it was given). -/
inductive SearchOutcome
  | serr (msg : String)
  | sok (items : List SearchItem)
deriving DecidableEq, Repr

/-- One shaped entry of `WebSearchTool.execute`'s `results` list. -/
structure SearchResultItem where
  title : String
  description : String
  url : String
  source : String
  searchRank : Nat
deriving DecidableEq, Repr

/-- The mapping returned by `WebSearchTool.execute` (tools.py:109-125). -/
structure WebSearchResult where
  success : Bool
  query : String
  results : List SearchResultItem := []
  totalFound : Option Nat := none
  searchTime : Option String := none
  searchEngine : String := "DuckDuckGo"
  error : Option String := none
deriving DecidableEq, Repr

/-- `WebSearchTool._extract_domain` (tools.py:127-133). -/
def extractDomain (url : String) : String := urlNetloc url

/-- `WebSearchTool.execute` (tools.py:82-125): shape the provider's items
(1-based `search_rank`), or catch any exception into
`{success: false, error, query}`.  The measured wall-clock `search_time`
is environment noise and is embedded as a placeholder string. -/
def webSearchExecute (query : String) (_limit : Nat) (o : SearchOutcome) : WebSearchResult :=
  match o with
  | .serr m => { success := false, query := query, error := some m }
  | .sok items =>
    { success := true
      query := query
      results := items.enum.map (fun p =>
        { title := p.2.title
          description := p.2.body
          url := p.2.href
          source := extractDomain p.2.href
          searchRank := p.1 + 1 })
      totalFound := some items.length
      searchTime := some "0.000s" }

/-! ## `tools.py`: ValidateAPITool -/

/-- A parsed JSON value as `response.json()` delivers it, at the granularity
`_analyze_json_structure` inspects: objects, arrays, and anything else with
its Python type name and `str()` rendering. -/
inductive PyJson
  | jobj (fields : List (String × PyJson))
  | jarr (elems : List PyJson)
  | jprim (typeName : String) (valueRepr : String)

/-- Python `type(data).__name__` on a parsed JSON value. -/
def typeNameOf : PyJson → String
  | .jobj _ => "dict"
  | .jarr _ => "list"
  | .jprim t _ => t

/-- The nested dict produced by `_analyze_json_structure`. -/
inductive JsonSummary
  | stype (typeName : String)
  | sobj (keys : List String) (sampleValues : List (String × JsonSummary))
  | sarr (len : Nat) (sampleItem : Option JsonSummary)
  | sprim (typeName : String) (sample : String)

/-- `ValidateAPITool._analyze_json_structure` (tools.py:208-229): depth cap,
first 10 keys, first 3 key-value pairs, first array item, 50-char sample. -/
def analyzeJsonStructure : Nat → PyJson → JsonSummary
  | 0, d => .stype (typeNameOf d)
  | maxDepth + 1, d =>
    match d with
    | .jobj fields =>
      .sobj ((fields.map (fun p => p.1)).take 10)
        ((fields.take 3).map (fun p => (p.1, analyzeJsonStructure maxDepth p.2)))
    | .jarr elems =>
      .sarr elems.length
        (match elems with
         | e :: _ => some (analyzeJsonStructure maxDepth e)
         | [] => none)
    | .jprim t v => .sprim t (String.mk (v.data.take 50))

/-- Outcome of the `requests.request` call inside `ValidateAPITool.execute`:
a timeout, another request exception, or a response with status, content
type and body.  `bodyJson` is the outcome of `response.json()` when the
code attempts it (`none` = the parse raises). -/
inductive APIOutcome
  | timeout
  | reqExn (msg : String)
  | resp (status : Nat) (contentType : String) (bodyJson : Option PyJson) (bodySize : Nat)

/-- The mapping returned by `ValidateAPITool.execute` (tools.py:174-206). -/
structure APIResult where
  success : Bool
  url : String
  statusCode : Option Nat := none
  isAccessible : Bool
  contentType : Option String := none
  isJson : Option Bool := none
  responseSize : Option Nat := none
  sampleStructure : Option JsonSummary := none
  jsonParseError : Bool := false
  error : Option String := none

/-- `ValidateAPITool.execute` (tools.py:161-206): issue the request;
timeouts and request exceptions become `{success: false, is_accessible:
false, error}`; a response reports status/content-type/size, with a
structural summary when a JSON body parses and `json_parse_error: true`
when it does not (note `success` stays `true` then). -/
def validateAPIExecute (url _method : String) (o : APIOutcome) : APIResult :=
  match o with
  | .timeout =>
    { success := false, url := url, isAccessible := false, error := some "Request timeout" }
  | .reqExn m =>
    { success := false, url := url, isAccessible := false, error := some m }
  | .resp status ct body size =>
    let ctLower := lowerStr ct
    let isJson := hasSub ctLower "application/json"
    let base : APIResult :=
      { success := true
        url := url
        statusCode := some status
        isAccessible := decide (status < 400)
        contentType := some ctLower
        isJson := some isJson
        responseSize := some size }
    if isJson && status < 400 then
      match body with
      | some d => { base with sampleStructure := some (analyzeJsonStructure 2 d) }
      | none => { base with jsonParseError := true }
    else base

/-! ## `tools.py`: FetchSTACDataTool -/

/-- One feature of a STAC search response, at the granularity
`FetchSTACDataTool.execute` inspects it. -/
structure StacFeature where
  fid : Option String
  geometryType : Option String
  properties : List (String × String)
deriving DecidableEq, Repr

/-- Outcome of the search request inside `FetchSTACDataTool.execute`: any
raised exception (requests, `response.json()`, the ORM lookup - all inside
the catch-all) or a response with status and parsed feature list. -/
inductive StacReq
  | raised (msg : String)
  | resp (status : Nat) (features : List StacFeature)
deriving DecidableEq, Repr

/-- The data-source collaborator as `FetchSTACDataTool.execute` consults it:
no active STAC catalog, a catalog without a search URL, or a catalog whose
search URL yields a request outcome. -/
inductive StacEnv
  | noCatalogs
  | noSearchUrl
  | catalog (searchUrl : String) (req : StacReq)
deriving DecidableEq, Repr

/-- The mapping returned by `FetchSTACDataTool.execute` (tools.py:276-342).
`bbox` is carried as the rendered numbers (its only use is query-string
construction for the external request). -/
structure StacResult where
  success : Bool
  collection : Option String := none
  searchUrl : Option String := none
  totalFound : Option Nat := none
  bboxUsed : Option (List String) := none
  sampleFeatures : List (Option String × Option String × List (String × String)) := []
  availableProperties : List String := []
  error : Option String := none
deriving DecidableEq, Repr

/-- `FetchSTACDataTool.execute` (tools.py:265-342): resolve the catalog,
run the search, and shape up to 3 sample features (5 properties each) plus
the first feature's property keys; every failure mode returns
`{success: false, error}`. -/
def fetchStacExecute (collection : String) (bbox : Option (List String)) (_limit : Nat)
    (env : StacEnv) : StacResult :=
  match env with
  | .noCatalogs => { success := false, error := some "No active STAC catalogs configured" }
  | .noSearchUrl => { success := false, error := some "STAC search URL not available" }
  | .catalog searchUrl req =>
    match req with
    | .raised m => { success := false, error := some m, collection := some collection }
    | .resp status features =>
      if status ≠ 200 then
        { success := false
          error := some ("STAC API returned " ++ toString status)
          collection := some collection }
      else
        { success := true
          collection := some collection
          searchUrl := some searchUrl
          totalFound := some features.length
          bboxUsed := bbox
          sampleFeatures := (features.take 3).map
            (fun f => (f.fid, f.geometryType, f.properties.take 5))
          availableProperties :=
            match features with
            | f :: _ => f.properties.map (fun p => p.1)
            | [] => [] }

/-! ## `tools.py`: ValidateHTMLEndpointsTool URL extraction -/

/-- `[a-zA-Z_$]`, the identifier-start class of the bare-`fetch` pattern. -/
def identStartChar (c : Char) : Bool :=
  ('a' ≤ c && c ≤ 'z') || ('A' ≤ c && c ≤ 'Z') || c = '_' || c = '$'

/-- `[a-zA-Z0-9_$]`. -/
def identChar (c : Char) : Bool :=
  identStartChar c || ('0' ≤ c && c ≤ '9')

/-- A quote or backtick, the class of `['\x22` and a backtick `]`. -/
def quoteOrTick (c : Char) : Bool :=
  isQuote c || c = '\x60'

/-- One iteration of the bare-`fetch` pattern's concatenation group
`(?:\s*\+\s*['\x22...][^'\x22...]*['\x22...])*` (a `+` then a quoted or
backticked chunk). -/
def concatPart (u : List Char) : Option (List Char) :=
  match lit "+" (wsStar u) with
  | some v1 =>
    match wsStar v1 with
    | c :: t =>
      if quoteOrTick c then
        match t.dropWhile (fun x => !(quoteOrTick x)) with
        | d :: v2 => if quoteOrTick d then some v2 else none
        | [] => none
      else none
    | [] => none
  | none => none

/-- Greedy star over `concatPart` (each iteration consumes at least one
character, so the length fuel suffices). -/
def concatStar : Nat → List Char → List Char
  | 0, u => u
  | fuel + 1, u =>
    match concatPart u with
    | some v => concatStar fuel v
    | none => u

/-- Anchored match of `fetch\s*\(\s*['\x22]([^'\x22]+)['\x22]`
(tools.py:423, IGNORECASE). -/
def mFetchQuote (s : List Char) : Option (Nat × String) := do
  let r1 ← litci "fetch" s
  let r2 ← lit "(" (wsStar r1)
  let r3 ← quoteCh (wsStar r2)
  let (cap, r4) ← span1 nonQuote r3
  let r5 ← quoteCh r4
  pure (s.length - r5.length, cap)

/-- Anchored match of the template-literal variant of the `fetch` pattern
(tools.py:424): a backtick-delimited URL. -/
def mFetchTick (s : List Char) : Option (Nat × String) := do
  let r1 ← litci "fetch" s
  let r2 ← lit "(" (wsStar r1)
  match wsStar r2 with
  | c :: t =>
    if c = '\x60' then do
      let (cap, r4) ← span1 (fun x => x != '\x60') t
      match r4 with
      | d :: r5 => if d = '\x60' then pure (s.length - r5.length, cap) else none
      | [] => none
    else none
  | [] => none

/-- Anchored match of the bare-identifier `fetch` pattern (tools.py:425):
`fetch\s*\(\s*` then an identifier optionally followed by quoted-string
concatenations; the capture is the identifier expression. -/
def mFetchIdent (s : List Char) : Option (Nat × String) :=
  match litci "fetch" s with
  | none => none
  | some r1 =>
    match lit "(" (wsStar r1) with
    | none => none
    | some r2 =>
      let r3 := wsStar r2
      match r3 with
      | c :: t =>
        if identStartChar c then
          let identRest := t.dropWhile identChar
          let after := concatStar identRest.length identRest
          some (s.length - after.length, String.mk (r3.take (r3.length - after.length)))
        else none
      | [] => none

/-- Anchored match of `axios\.get\s*\(\s*['\x22]([^'\x22]+)['\x22]`
(tools.py:428). -/
def mAxiosGet (s : List Char) : Option (Nat × String) := do
  let r1 ← litci "axios.get" s
  let r2 ← lit "(" (wsStar r1)
  let r3 ← quoteCh (wsStar r2)
  let (cap, r4) ← span1 nonQuote r3
  let r5 ← quoteCh r4
  pure (s.length - r5.length, cap)

/-- Anchored match of `axios\.post\s*\(\s*['\x22]([^'\x22]+)['\x22]`
(tools.py:429). -/
def mAxiosPost (s : List Char) : Option (Nat × String) := do
  let r1 ← litci "axios.post" s
  let r2 ← lit "(" (wsStar r1)
  let r3 ← quoteCh (wsStar r2)
  let (cap, r4) ← span1 nonQuote r3
  let r5 ← quoteCh r4
  pure (s.length - r5.length, cap)

/-- Anchored match of `axios\(\s*['\x22]([^'\x22]+)['\x22]` (tools.py:430,
no whitespace between `axios` and the parenthesis). -/
def mAxiosCall (s : List Char) : Option (Nat × String) := do
  let r1 ← litci "axios(" s
  let r2 ← quoteCh (wsStar r1)
  let (cap, r3) ← span1 nonQuote r2
  let r4 ← quoteCh r3
  pure (s.length - r4.length, cap)

/-- Anchored match of the XMLHttpRequest pattern
`\.open\s*\(\s*['\x22][^'\x22]*['\x22],\s*['\x22]([^'\x22]+)['\x22]`
(tools.py:433): the second quoted argument is captured. -/
def mXhrOpen (s : List Char) : Option (Nat × String) := do
  let r1 ← litci ".open" s
  let r2 ← lit "(" (wsStar r1)
  let r3 ← quoteCh (wsStar r2)
  let r4 := r3.dropWhile nonQuote
  let r5 ← quoteCh r4
  let r6 ← lit "," r5
  let r7 ← quoteCh (wsStar r6)
  let (cap, r8) ← span1 nonQuote r7
  let r9 ← quoteCh r8
  pure (s.length - r9.length, cap)

/-- Does the character-list contain `a` and, after it, `b`
(case-insensitively) - the backbone of the `stac...search` and
`search...collections` string patterns? -/
def seqContainsCi (a b : String) (run : List Char) : Bool :=
  anySuffix (fun t =>
    match litci a t with
    | some r => hasSubL (b.data.map lowerChar) (r.map lowerChar)
    | none => false) run

/-- Does the run contain one of `api`, `search`, `endpoint`
(case-insensitively)? -/
def hasApiIndicator (run : List Char) : Bool :=
  ["api", "search", "endpoint"].any
    (fun k => hasSubL (k.data.map lowerChar) (run.map lowerChar))

/-- `\s+`. -/
def wsPlus (s : List Char) : Option (List Char) :=
  match s with
  | c :: t => if pySpace c then some (t.dropWhile pySpace) else none
  | [] => none

/-- Anchored match of the direct-assignment pattern (tools.py:436):
`(?:const|let|var)\s+\w+\s*=\s*['\x22]([^'\x22]*(?:api|search|endpoint)[^'\x22]*)['\x22]`.
The capture is the whole quoted run, which must contain an indicator. -/
def mVarAssign (s : List Char) : Option (Nat × String) := do
  let r1 ← (litci "const" s <|> litci "let" s <|> litci "var" s)
  let r2 ← wsPlus r1
  let (_, r3) ← span1 isWordChar r2
  let r4 ← lit "=" (wsStar r3)
  let r5 ← quoteCh (wsStar r4)
  let run := r5.takeWhile nonQuote
  let r6 ← quoteCh (r5.drop run.length)
  if hasApiIndicator run then pure (s.length - r6.length, String.mk run) else none

/-- Anchored match of the STAC string pattern (tools.py:439):
`['\x22]([^'\x22]*stac[^'\x22]*search[^'\x22]*)['\x22]`. -/
def mStacSearchStr (s : List Char) : Option (Nat × String) := do
  let r1 ← quoteCh s
  let run := r1.takeWhile nonQuote
  let r2 ← quoteCh (r1.drop run.length)
  if seqContainsCi "stac" "search" run then pure (s.length - r2.length, String.mk run) else none

/-- Anchored match of the catalog-search string pattern (tools.py:440):
`['\x22]([^'\x22]*search[^'\x22]*collections[^'\x22]*)['\x22]`. -/
def mSearchCollectionsStr (s : List Char) : Option (Nat × String) := do
  let r1 ← quoteCh s
  let run := r1.takeWhile nonQuote
  let r2 ← quoteCh (r1.drop run.length)
  if seqContainsCi "search" "collections" run then
    pure (s.length - r2.length, String.mk run)
  else none

/-- `ValidateHTMLEndpointsTool._is_likely_url` (tools.py:472-483). -/
def isLikelyUrl (text : String) : Bool :=
  if text.data.isEmpty || text.length < 4 then false
  else if !(prefAt "http://".data text.data || prefAt "https://".data text.data
      || prefAt "/".data text.data) then false
  else
    ["api", "search", "endpoint", "data", "service", "stac"].any
      (fun ind => hasSub (lowerStr text) ind)

/-- One entry of `_extract_urls_from_content`'s url list (url, the source
pattern text, surrounding context, 1-based line number). -/
structure UrlInfo where
  url : String
  pattern : String
  context : String
  lineNumber : Nat
deriving DecidableEq, Repr

/-- The ten extraction patterns of tools.py:421-441, paired with their
anchored matchers, in source order. -/
def urlPatterns : List (String × (List Char → Option (Nat × String))) :=
  [("fetch\\s*\\(\\s*['\"]([^'\"]+)['\"]", mFetchQuote),
   ("fetch\\s*\\(\\s*\x60([^\x60]+)\x60", mFetchTick),
   ("fetch\\s*\\(\\s*([a-zA-Z_$][a-zA-Z0-9_$]*(?:\\s*\\+\\s*['\"\x60][^'\"\x60]*['\"\x60])*)",
    mFetchIdent),
   ("axios\\.get\\s*\\(\\s*['\"]([^'\"]+)['\"]", mAxiosGet),
   ("axios\\.post\\s*\\(\\s*['\"]([^'\"]+)['\"]", mAxiosPost),
   ("axios\\(\\s*['\"]([^'\"]+)['\"]", mAxiosCall),
   ("\\.open\\s*\\(\\s*['\"][^'\"]*['\"],\\s*['\"]([^'\"]+)['\"]", mXhrOpen),
   ("(?:const|let|var)\\s+\\w+\\s*=\\s*['\"]([^'\"]*(?:api|search|endpoint)[^'\"]*)['\"]",
    mVarAssign),
   ("['\"]([^'\"]*stac[^'\"]*search[^'\"]*)['\"]", mStacSearchStr),
   ("['\"]([^'\"]*search[^'\"]*collections[^'\"]*)['\"]", mSearchCollectionsStr)]

/-- Per-match shaping of `_extract_urls_from_content` (tools.py:443-459):
strip the capture, keep it when it looks like a URL, and record pattern
text, a 100-character context window (newlines blanked, stripped) and the
line number. -/
def collectMatches (s : List Char) (pat : String) (ms : List (Nat × Nat × String)) :
    List UrlInfo :=
  ms.filterMap (fun m =>
    let url := pyStrip m.2.2
    if isLikelyUrl url then
      let cstart := m.1 - 50
      let cend := min s.length (m.2.1 + 50)
      some { url := url
             pattern := pat
             context := pyStrip (String.mk (((s.drop cstart).take (cend - cstart)).map
               (fun c => if c = '\n' then ' ' else c)))
             lineNumber := ((s.take m.1).filter (fun c => c = '\n')).length + 1 }
    else none)

/-- Deduplication by URL, first occurrence kept (tools.py:461-470). -/
def dedupByUrl (seen : List String) : List UrlInfo → List UrlInfo
  | [] => []
  | u :: rest =>
    if seen.contains u.url then dedupByUrl seen rest
    else u :: dedupByUrl (u.url :: seen) rest

/-- `ValidateHTMLEndpointsTool._extract_urls_from_content`
(tools.py:416-470): run the ten patterns in order, filter by
`_is_likely_url`, deduplicate by URL. -/
def extractUrlsFromContent (content : String) : List UrlInfo :=
  let s := content.data
  let all := (urlPatterns.map (fun p => collectMatches s p.1 (findAllPos p.2 s))).flatten
  dedupByUrl [] all

/-! ## `tools.py`: ValidateHTMLEndpointsTool validation -/

/-- Outcome of the HEAD request inside `_validate_single_url`. -/
inductive UrlOutcome
  | timeout
  | reqExn (msg : String)
  | headResp (status : Nat) (finalUrl : String)
deriving DecidableEq, Repr

/-- The fields `_validate_single_url` merges into a url record
(tools.py:485-539).  The measured wall-clock `response_time` of a served
response is environment noise, embedded as `none`; the timeout arm reports
the configured timeout as the source does. -/
structure UrlValidation where
  isAccessible : Bool
  statusCode : Option Nat
  errorMsg : Option String
  responseTime : Option Nat
  finalUrl : Option String := none
deriving DecidableEq, Repr

/-- CPython `urlsplit`'s IPv6 bracket check: once the authority has been
split off the URL, a `[` without a `]` (or a `]` without a `[`) makes it
throw `ValueError("Invalid IPv6 URL")`.  Every URL this code hands to
`urlparse` (tools.py:499) starts with `http://` or `https://`
(`_is_likely_url` admits only those or relative URLs, and relative URLs
return before the parse), so `urlNetloc` is exactly the authority
`urlsplit` checks.  Newer CPython additionally validates the contents of a
balanced bracket pair; that extra throw path has the same observable shape
(a `ValueError` reaching `execute`'s catch-all) and is not modelled. -/
def invalidIPv6Url (url : String) : Bool :=
  let netloc := urlNetloc url
  (netloc.contains '[' && !netloc.contains ']')
    || (netloc.contains ']' && !netloc.contains '[')

/-- The condition under which `_validate_single_url` propagates an
exception instead of returning a record: the URL is not relative (so
`urlparse` runs, tools.py:499) and its authority fails `urlsplit`'s
bracket check.  The exception escapes the per-URL handlers (they catch
only `Timeout` and `RequestException`) and aborts the whole tool call. -/
def urlAborts (url : String) : Bool :=
  !prefAt "/".data url.data && invalidIPv6Url url

/-- `ValidateHTMLEndpointsTool._validate_single_url` (tools.py:485-539):
relative URLs are unconditionally invalid, `urlparse` throws
`ValueError("Invalid IPv6 URL")` on a bracket-mismatched authority
(uncaught - `.error`), URLs without an authority are an invalid format,
then the HEAD request decides accessibility (`status < 400`). -/
def validateSingleUrl (timeoutCfg : Nat) (url : String) (o : UrlOutcome) :
    Except String UrlValidation :=
  if prefAt "/".data url.data then
    .ok { isAccessible := false
          statusCode := none
          errorMsg := some "Relative URL - cannot validate without base domain"
          responseTime := none }
  else if invalidIPv6Url url then .error "Invalid IPv6 URL"
  else if (urlNetloc url).isEmpty then
    .ok { isAccessible := false
          statusCode := none
          errorMsg := some "Invalid URL format"
          responseTime := none }
  else
    match o with
    | .timeout =>
      .ok { isAccessible := false
            statusCode := none
            errorMsg := some "Request timeout"
            responseTime := some timeoutCfg }
    | .reqExn m =>
      .ok { isAccessible := false
            statusCode := none
            errorMsg := some m
            responseTime := none }
    | .headResp status finalU =>
      .ok { isAccessible := decide (status < 400)
            statusCode := some status
            errorMsg := if status < 400 then none else some ("HTTP " ++ toString status)
            responseTime := none
            finalUrl := if finalU ≠ url then some finalU else none }

/-- A url record after `url_info.update(validation_result)`
(tools.py:392-394). -/
structure ValidatedUrl where
  url : String
  pattern : String
  context : String
  lineNumber : Nat
  isAccessible : Bool
  statusCode : Option Nat
  errorMsg : Option String
  responseTime : Option Nat
  finalUrl : Option String
deriving DecidableEq, Repr

/-- The per-URL validation loop of `ValidateHTMLEndpointsTool.execute`
(tools.py:389-399), partitioning into valid and invalid in order;
`outcomes i` is the network outcome for the i-th extracted URL.  An
exception out of `_validate_single_url` aborts the loop (`.error`),
discarding the records built so far. -/
def partitionUrls (timeoutCfg : Nat) (outcomes : Nat → UrlOutcome) :
    Nat → List UrlInfo → Except String (List ValidatedUrl × List ValidatedUrl)
  | _, [] => .ok ([], [])
  | i, u :: rest =>
    match validateSingleUrl timeoutCfg u.url (outcomes i) with
    | .error m => .error m
    | .ok v =>
      let vu : ValidatedUrl :=
        { url := u.url
          pattern := u.pattern
          context := u.context
          lineNumber := u.lineNumber
          isAccessible := v.isAccessible
          statusCode := v.statusCode
          errorMsg := v.errorMsg
          responseTime := v.responseTime
          finalUrl := v.finalUrl }
      match partitionUrls timeoutCfg outcomes (i + 1) rest with
      | .error m => .error m
      | .ok p =>
        .ok (if v.isAccessible then (vu :: p.1, p.2) else (p.1, vu :: p.2))

/-- Python rendering of an optional status code (`None` prints as None). -/
def statusStr : Option Nat → String
  | some n => toString n
  | none => "None"

/-- Python rendering of an optional error message. -/
def errStr : Option String → String
  | some m => m
  | none => "None"

/-- `ValidateHTMLEndpointsTool._create_validation_summary`
(tools.py:541-559). -/
def createValidationSummary (valid invalid : List ValidatedUrl) : String :=
  let validPart :=
    if !valid.isEmpty then
      ["✅ " ++ toString valid.length ++ " valid endpoints:"]
        ++ (valid.take 5).map (fun u => "  - " ++ u.url ++ " (" ++ statusStr u.statusCode ++ ")")
        ++ (if valid.length > 5 then ["  ...and " ++ toString (valid.length - 5) ++ " more"] else [])
    else []
  let invalidPart :=
    if !invalid.isEmpty then
      ["❌ " ++ toString invalid.length ++ " invalid endpoints:"]
        ++ (invalid.take 5).map (fun u => "  - " ++ u.url ++ " - " ++ errStr u.errorMsg)
        ++ (if invalid.length > 5 then ["  ...and " ++ toString (invalid.length - 5) ++ " more"] else [])
    else []
  String.intercalate "\n" (validPart ++ invalidPart)

/-- The mapping returned by `ValidateHTMLEndpointsTool.execute`
(tools.py:380-414). -/
structure EndpointsResult where
  success : Bool
  urlsFound : Option Nat := none
  validUrls : List ValidatedUrl := []
  invalidUrls : List ValidatedUrl := []
  validationSummary : Option String := none
  message : Option String := none
  error : Option String := none
deriving DecidableEq, Repr

/-- `ValidateHTMLEndpointsTool.execute` (tools.py:370-414): combine the
contents, extract candidate URLs, validate each.  The catch-all arm
(tools.py:409-414) is reachable: an extracted URL with a bracket-mismatched
authority (e.g. `https://[api`, which passes `_is_likely_url`) makes
`urlparse` throw `ValueError("Invalid IPv6 URL")` inside
`_validate_single_url`, and the catch-all returns
`{"success": False, "error": str(e)}`. -/
def htmlEndpointsExecute (timeoutCfg : Nat) (htmlContent jsContent : String)
    (outcomes : Nat → UrlOutcome) : EndpointsResult :=
  let allContent := htmlContent ++ "\n" ++ jsContent
  let urls := extractUrlsFromContent allContent
  if urls.isEmpty then
    { success := true
      urlsFound := some 0
      validUrls := []
      invalidUrls := []
      message := some "No API endpoints found in content" }
  else
    match partitionUrls timeoutCfg outcomes 0 urls with
    | .error m => { success := false, error := some m }
    | .ok p =>
      { success := true
        urlsFound := some urls.length
        validUrls := p.1
        invalidUrls := p.2
        validationSummary := some (createValidationSummary p.1 p.2) }

/-! ## `tools.py`: ToolRegistry -/

/-- `ToolRegistry._register_default_tools` (tools.py:569-578): the names
registered, in order, under the two settings flags. -/
def registryNames (enableWebSearch enableAPIValidation : Bool) : List String :=
  (if enableWebSearch then ["web_search"] else [])
    ++ (if enableAPIValidation then ["validate_api_endpoint"] else [])
    ++ ["fetch_stac_sample_data", "validate_html_endpoints"]

/-- `ToolRegistry.get_tool` (tools.py:584-586): name lookup, `none` for
unknown names. -/
def getTool (names : List String) (name : String) : Option String :=
  names.find? (fun m => m = name)

/-! ## `react_agent.py`: ReactAgent

External collaborators appear as explicit parameters: the OpenAI client's
per-call outcome (already folded through `json.loads`: a call either
raises, yields unparseable text, or yields a parsed object - a response
parsing to a non-dict value raises in the subsequent `.get`/indexing and
lands in the same exception arm), the tools' per-call outcome, and the
session store (a raising store propagates out of `execute`, see
`executeAgent`).  Wall-clock timestamps and the prompt-only reference
strings (`available_data_sources`, `available_templates`,
`gathered_intelligence`) do not influence control flow and are omitted
from the state. -/

/-- The `parameters` value of a model-chosen action: a mapping, a bare
string, or some other JSON type (only its Python type name matters to
`_execute_tool`'s normalization). -/
inductive ToolParams
  | pdict (kv : List (String × String))
  | pstr (s : String)
  | pother (typeName : String)
deriving DecidableEq, Repr

/-- A parsed action object, `{reasoning, action, parameters, continue}`
(react_agent.py:313-317); every key may be absent.  The `continue` key is
never read by `execute` and is not modeled. -/
structure PAction where
  action : Option String := none
  reasoning : Option String := none
  parameters : Option ToolParams := none
deriving DecidableEq, Repr

/-- A tool result as the loop inspects it: the `success` flag (guardrail
counting) and the error fields `_execute_tool` itself writes; tool-specific
payload fields enter the context opaquely and are not modeled. -/
structure ToolResult where
  success : Bool
  error : Option String := none
  tool : Option String := none
  rawParameters : Option String := none
deriving DecidableEq, Repr

/-- Outcome of `tool.execute(**parameters)` at the loop's call boundary
(react_agent.py:451): the call returns a result mapping or raises. -/
inductive ToolCallOutcome
  | raised (msg : String)
  | ret (result : ToolResult)
deriving DecidableEq, Repr

/-- One element of `context["tool_results"]` (react_agent.py:233-238); the
wall-clock timestamp is omitted. -/
structure ToolEntry where
  iteration : Nat
  action : PAction
  result : ToolResult
deriving DecidableEq, Repr

/-- One element of `context["reasoning_steps"]` (react_agent.py:397-402);
the wall-clock timestamp is omitted. -/
structure ReasonEntry where
  iteration : Nat
  reasoning : String
  actionName : String
deriving DecidableEq, Repr

/-- The configuration read at construction (react_agent.py:29-37,
tools.py:571-575): budgets, client availability, tool enable flags, and
whether the session store's writes succeed. -/
structure AgConfig where
  maxIterations : Nat
  maxLLMCalls : Nat
  clientAvailable : Bool
  enableWebSearch : Bool := true
  enableAPIValidation : Bool := true
  storeOk : Bool := true
deriving DecidableEq, Repr

/-- The parsed implementation plan.  Only `summary` influences control flow
(react_agent.py:206 indexes it unconditionally); the remaining keys are
read with `.get` defaults and feed prompts only. -/
structure AgPlan where
  summary : Option String := none
deriving DecidableEq, Repr

/-- Outcome of the planning model call (react_agent.py:571-611). -/
inductive PlanOutcome
  | pexn (msg : String)
  | punparseable (msg : String)
  | pparsed (plan : AgPlan)
deriving DecidableEq, Repr

/-- Outcome of one reasoning model call (react_agent.py:340-371). -/
inductive ReasonOutcome
  | rexn (msg : String)
  | runparseable (msg : String)
  | rparsed (a : PAction)
deriving DecidableEq, Repr

/-- Outcome of the final-generation model call (react_agent.py:771-811).
`gparsed` covers both a directly parsed response and one recovered by the
backslash-repair pass (`_fix_json_escaping`) - the downstream flow is
identical; `gbadJson` covers text that stays unparseable (the decode error
is re-raised and caught by the outer handler). -/
inductive GenOutcome
  | gexn (msg : String)
  | gbadJson (msg : String)
  | gparsed (raw : RawContent)
deriving DecidableEq, Repr

/-- One execution's environment: the outcome of each external call, indexed
by the agent's own call counters. -/
structure AgEnv where
  planOutcome : PlanOutcome
  reasonOutcomes : Nat → ReasonOutcome
  toolOutcomes : Nat → ToolCallOutcome
  genOutcome : GenOutcome
  fixResponses : Nat → Option RawContent

/-- The mutable per-execution agent state (react_agent.py:29-48). -/
structure AgState where
  iterationsCompleted : Nat := 0
  llmCallsMade : Nat := 0
  readyToGenerate : Bool := false
  toolResults : List ToolEntry := []
  reasoningSteps : List ReasonEntry := []
  planningCompleted : Bool := false
  implementationPlan : Option AgPlan := none
  reasonCalls : Nat := 0
  toolCalls : Nat := 0
deriving DecidableEq, Repr

/-- `successful_tool_calls` (react_agent.py:374). -/
def successfulToolCalls (trs : List ToolEntry) : Nat :=
  (trs.filter (fun e => e.result.success)).length

/-- `stac_calls_made` (react_agent.py:375-377). -/
def stacSuccessCalls (trs : List ToolEntry) : Nat :=
  (trs.filter (fun e =>
    e.action.action == some "fetch_stac_sample_data" && e.result.success)).length

/-- The replacement action of the first guardrail (react_agent.py:383-387). -/
def blockedInsufficient (sc : Nat) : PAction :=
  { action := some "no_action"
    reasoning := some ("Insufficient research completed (" ++ toString sc
      ++ " successful tool calls). Must gather more intelligence using available tools before generating HTML.") }

/-- The replacement action of the second guardrail (react_agent.py:390-394). -/
def blockedNoStac : PAction :=
  { action := some "no_action"
    reasoning := some "Must fetch sample data from configured STAC sources before generating HTML. Use 'fetch_stac_sample_data' tool first to understand available data structure." }

/-- `ReactAgent._reason_about_next_step` (react_agent.py:261-412): fall back
to `generate_final_html` without a client or budget (and on an exception of
the model call), fall back to `no_action` on unparseable JSON; on a parsed
action apply the two guardrails before a `generate_final_html` decision and
append the reasoning step (the fallback arms return before that append). -/
def reasonCore (cfg : AgConfig) (env : AgEnv) (s : AgState) : PAction × AgState :=
  if !cfg.clientAvailable || cfg.maxLLMCalls ≤ s.llmCallsMade then
    ({ action := some "generate_final_html", reasoning := some "LLM calls exhausted" }, s)
  else
    let o := env.reasonOutcomes s.reasonCalls
    let s1 := { s with llmCallsMade := s.llmCallsMade + 1, reasonCalls := s.reasonCalls + 1 }
    match o with
    | .rexn m =>
      ({ action := some "generate_final_html", reasoning := some ("Error in reasoning: " ++ m) },
       s1)
    | .runparseable m =>
      ({ action := some "no_action", reasoning := some ("JSON parsing failed: " ++ m) }, s1)
    | .rparsed a =>
      let sc := successfulToolCalls s1.toolResults
      let st := stacSuccessCalls s1.toolResults
      let a2 :=
        if a.action == some "generate_final_html" then
          if sc < 2 then blockedInsufficient sc
          else if st = 0 then blockedNoStac
          else a
        else a
      let s2 := { s1 with reasoningSteps := s1.reasoningSteps
        ++ [{ iteration := s1.iterationsCompleted
              reasoning := a2.reasoning.getD ""
              actionName := a2.action.getD "" }] }
      (a2, s2)

/-- The `tool.execute(**parameters)` boundary inside `_execute_tool`'s
`try` (react_agent.py:451-463): a raised exception becomes a structured
error result (its `parameters` echo is not modeled in `ToolResult`). -/
def runToolCall (env : AgEnv) (s : AgState) (toolName : String) : ToolResult × AgState :=
  let o := env.toolOutcomes s.toolCalls
  let s1 := { s with toolCalls := s.toolCalls + 1 }
  match o with
  | .raised m => ({ success := false, error := some m, tool := some toolName }, s1)
  | .ret r => (r, s1)

/-- `ReactAgent._execute_tool` (react_agent.py:414-463): registry lookup
(a missing tool is `Tool '<name>' not found`), parameter normalization
(a bare string is wrapped for `web_search`, other non-dict shapes are
structured errors; `rawParameters` stands in for `str(parameters)`), then
the tool call. -/
def executeToolD (cfg : AgConfig) (env : AgEnv) (s : AgState) (a : PAction) :
    ToolResult × AgState :=
  let toolName := a.action.getD "None"
  match getTool (registryNames cfg.enableWebSearch cfg.enableAPIValidation) toolName with
  | none => ({ success := false, error := some ("Tool '" ++ toolName ++ "' not found") }, s)
  | some _ =>
    match a.parameters.getD (ToolParams.pdict []) with
    | .pstr q =>
      if toolName = "web_search" then runToolCall env s toolName
      else
        ({ success := false
           error := some "Invalid parameters format: expected dict, got string"
           tool := some toolName
           rawParameters := some q }, s)
    | .pother tn =>
      ({ success := false
         error := some ("Invalid parameters format: expected dict, got " ++ tn)
         tool := some toolName
         rawParameters := some tn }, s)
    | .pdict _ => runToolCall env s toolName

/-- One iteration of the REACT loop body (react_agent.py:218-240):
increment the iteration counter, reason, accept `generate_final_html` by
setting the ready flag and breaking, otherwise act on a truthy non-sentinel
action and observe the result into `tool_results`. -/
def loopStep (cfg : AgConfig) (env : AgEnv) (s : AgState) : AgState :=
  let s1 := { s with iterationsCompleted := s.iterationsCompleted + 1 }
  let pr := reasonCore cfg env s1
  let a := pr.1
  let s2 := pr.2
  if a.action == some "generate_final_html" then { s2 with readyToGenerate := true }
  else
    match a.action with
    | some n =>
      if n != "no_action" && n != "" then
        let tr := executeToolD cfg env s2 a
        { tr.2 with toolResults := tr.2.toolResults
          ++ [{ iteration := tr.2.iterationsCompleted, action := a, result := tr.1 }] }
      else s2
    | none => s2

/-- The `while` loop of `ReactAgent.execute` (react_agent.py:214-240).  The
fuel only certifies termination: each pass increments
`iterations_completed`, which the guard bounds by `max_iterations`, so the
fuel `execute` supplies is never the binding exit. -/
def reactLoop (cfg : AgConfig) (env : AgEnv) : Nat → AgState → AgState
  | 0, s => s
  | fuel + 1, s =>
    if s.iterationsCompleted < cfg.maxIterations ∧ s.llmCallsMade < cfg.maxLLMCalls
        ∧ s.readyToGenerate = false then
      reactLoop cfg env fuel (loopStep cfg env s)
    else s

/-- The mapping `_validate_generated_urls` returns (react_agent.py:947-1000).
The tool is invoked as `validate_tool.execute({"html_content": combined})`,
passing the mapping itself as the positional string parameter; inside the
tool the left operand of `html_content + "\n"` is a dict, so the
concatenation throws
`TypeError: unsupported operand type(s) for +: 'dict' and 'str'`, the
tool's catch-all returns `{success: False, error: str(e)}`, and the
caller - which
reads a nonexistent `endpoints` key - computes `invalid_urls = []` and
`has_invalid_urls = False`.  The outcome is therefore the same failure
record for every content. -/
structure UrlValidationOutcome where
  success : Bool
  error : Option String
  hasInvalidUrls : Bool
  invalidUrls : List ValidatedUrl := []
deriving DecidableEq, Repr

/-- `ReactAgent._validate_generated_urls` (see `UrlValidationOutcome`). -/
def validateGeneratedUrls (_c : GenContent) : UrlValidationOutcome :=
  { success := false
    error := some "unsupported operand type(s) for +: 'dict' and 'str'"
    hasInvalidUrls := false }

/-- The mapping `ReactAgent.execute` returns (react_agent.py:208-259,
840-857): absent keys of failure branches are `none`. -/
structure ExecResult where
  success : Bool
  error : Option String := none
  htmlContent : Option GenContent := none
  intelligenceUsed : Option Nat := none
  iterationsCompleted : Option Nat := none
  llmCallsMade : Option Nat := none
  htmlValidation : Option FixOutcome := none
  urlValidation : Option UrlValidationOutcome := none
deriving DecidableEq, Repr

/-- `ReactAgent._generate_final_html` (react_agent.py:613-857): without a
client fail; otherwise increment `llm_calls_made` (line 772 - with no
budget check), consume the generation outcome, default missing fields to
empty strings, run the validation agent, run the (degenerate) URL
validation, and return the structured success mapping; exceptions and
unrepairable JSON become `{success: false, error}`. -/
def generateFinalHtml (cfg : AgConfig) (env : AgEnv) (s : AgState) : ExecResult × AgState :=
  if !cfg.clientAvailable then
    ({ success := false, error := some "OpenAI client not available" }, s)
  else
    let s1 := { s with llmCallsMade := s.llmCallsMade + 1 }
    match env.genOutcome with
    | .gexn m => ({ success := false, error := some m }, s1)
    | .gbadJson m => ({ success := false, error := some m }, s1)
    | .gparsed raw =>
      let c0 := applyDefaultsEmpty raw
      let vfix := validateAndFix cfg.clientAvailable env.fixResponses c0
      let c1 := if vfix.contentFixed then vfix.htmlContent else c0
      let uv := validateGeneratedUrls c1
      -- react_agent.py:831-838: the URL-fix call is guarded by
      -- `has_invalid_urls` (always false here) and the budget; kept for
      -- faithfulness, its increment is unreachable.
      let s2 :=
        if uv.hasInvalidUrls && decide (s1.llmCallsMade < cfg.maxLLMCalls) then
          { s1 with llmCallsMade := s1.llmCallsMade + 1 }
        else s1
      ({ success := true
         htmlContent := some c1
         intelligenceUsed := some s2.toolResults.length
         iterationsCompleted := some s2.iterationsCompleted
         llmCallsMade := some s2.llmCallsMade
         htmlValidation := some vfix
         urlValidation := some uv }, s2)

/-- The body of `ReactAgent.execute` past the initial session writes
(react_agent.py:199-248): planning (react_agent.py:507-611 - the budget is
checked before the increment; a parsed plan without a `summary` key raises
KeyError in the success log line 206, caught by the outer handler 250-259
as `str(KeyError('summary'))`), then the REACT loop, then generation. -/
def executeBody (cfg : AgConfig) (env : AgEnv) : ExecResult × AgState :=
  let s0 : AgState := {}
  if !cfg.clientAvailable || cfg.maxLLMCalls ≤ s0.llmCallsMade then
    ({ success := false
       error := some "Planning failed: OpenAI client not available or LLM calls exhausted" },
     s0)
  else
    let s1 := { s0 with llmCallsMade := s0.llmCallsMade + 1 }
    match env.planOutcome with
    | .pexn m => ({ success := false, error := some ("Planning failed: " ++ m) }, s1)
    | .punparseable m =>
      ({ success := false
         error := some ("Planning failed: Failed to parse planning JSON: " ++ m) }, s1)
    | .pparsed plan =>
      match plan.summary with
      | none => ({ success := false, error := some "'summary'" }, s1)
      | some _ =>
        let s2 := { s1 with planningCompleted := true, implementationPlan := some plan }
        let s3 := reactLoop cfg env cfg.maxIterations s2
        generateFinalHtml cfg env s3

/-- `ReactAgent.execute` (react_agent.py:188-259).  The context/task writes
and the first `_save_session`/`_log_message` (lines 192-197) run BEFORE the
`try` block, and the exception handler itself calls `_save_session` again:
with a raising session store the exception propagates to the caller, which
the `Except.error` value records.  With a working store the body never
raises (every other failure is handled into a result mapping). -/
def executeAgent (cfg : AgConfig) (env : AgEnv) (_userRequest : String) :
    Except String (ExecResult × AgState) :=
  if !cfg.storeOk then .error "session store raised" else .ok (executeBody cfg env)

/-! ## Severity ordering (specification-side definitions for C4) -/

/-- The three severity labels. -/
def isSeverity (s : String) : Prop := s = "low" ∨ s = "medium" ∨ s = "high"

/-- Numeric rank of a severity label under high > medium > low. -/
def sevRank (s : String) : Nat :=
  if s = "high" then 2 else if s = "medium" then 1 else 0

/-- Maximum of two severity labels under high > medium > low (specification
wording; to be compared with the source's fold `sevStep`). -/
def specMaxSev (a b : String) : String :=
  if sevRank a < sevRank b then b else a

/-- Every analyzer severity field is one of the three labels (the shape
`if len > hi then "high" else if len > 0 then "medium" else "low"`). -/
theorem sev_ite_mem (n hi : Nat) :
    isSeverity (if n > hi then "high" else if n > 0 then "medium" else "low") := by
  unfold isSeverity; split_ifs <;> simp

/-- The HTML analyzer's severity is a severity label. -/
theorem htmlValidate_sev (h : String) : isSeverity (htmlStructureValidate h).severity :=
  sev_ite_mem _ 3

/-- The JS analyzer's severity is a severity label. -/
theorem jsValidate_sev (js : String) : isSeverity (javascriptValidate js).severity :=
  sev_ite_mem _ 2

/-- The dependency analyzer's severity is a severity label. -/
theorem depValidate_sev (h c j : String) : isSeverity (dependencyValidate h c j).severity :=
  sev_ite_mem _ 2

/-- The source's three-step severity fold computes the maximum under
high > medium > low. -/
theorem sevStep_fold_max (a b c : String)
    (ha : isSeverity a) (hb : isSeverity b) (hc : isSeverity c) :
    sevStep (sevStep (sevStep "low" a) b) c = specMaxSev (specMaxSev a b) c := by
  rcases ha with rfl | rfl | rfl <;> rcases hb with rfl | rfl | rfl <;>
    rcases hc with rfl | rfl | rfl <;> rfl

/-- The orchestrator hands the HTML analyzer the synthetic document. -/
theorem orch_htmlValidation (c : GenContent) :
    (validateGeneratedContent c).htmlValidation = htmlStructureValidate (buildFullHtml c) := rfl

/-- The orchestrator hands the JS analyzer `custom_js`. -/
theorem orch_jsValidation (c : GenContent) :
    (validateGeneratedContent c).jsValidation = javascriptValidate c.customJs := rfl

/-- The orchestrator hands the dependency checker document, css and js. -/
theorem orch_depValidation (c : GenContent) :
    (validateGeneratedContent c).dependencyValidation
      = dependencyValidate (buildFullHtml c) c.customCss c.customJs := rfl

/-- The HTML analyzer's embedded `except` arm is unreachable. -/
theorem htmlValidate_success (h : String) : (htmlStructureValidate h).success = true := rfl

/-- The JS analyzer's embedded `except` arm is unreachable. -/
theorem jsValidate_success (js : String) : (javascriptValidate js).success = true := rfl

/-- The dependency checker's embedded `except` arm is unreachable. -/
theorem depValidate_success (h c j : String) : (dependencyValidate h c j).success = true := rfl

set_option maxHeartbeats 1000000 in
/-- The orchestrator's severity field unfolds to the three-step fold. -/
theorem orch_overallSeverity (c : GenContent) :
    (validateGeneratedContent c).overallSeverity =
      sevStep (sevStep (sevStep "low" (htmlStructureValidate (buildFullHtml c)).severity)
          (javascriptValidate c.customJs).severity)
        (dependencyValidate (buildFullHtml c) c.customCss c.customJs).severity := by
  unfold validateGeneratedContent
  simp only [htmlValidate_success, jsValidate_success, depValidate_success, if_true]

/-- C4: for every five-field content mapping, provided each of the three
analyzers returns success, the orchestrator's `overall_severity` equals the
maximum of the three analyzers' severities under high > medium > low. -/
theorem c4_overall_severity_max (c : GenContent)
    (h1 : (validateGeneratedContent c).htmlValidation.success = true)
    (h2 : (validateGeneratedContent c).jsValidation.success = true)
    (h3 : (validateGeneratedContent c).dependencyValidation.success = true) :
    (validateGeneratedContent c).overallSeverity =
      specMaxSev
        (specMaxSev (validateGeneratedContent c).htmlValidation.severity
          (validateGeneratedContent c).jsValidation.severity)
        (validateGeneratedContent c).dependencyValidation.severity := by
  rw [orch_overallSeverity, orch_htmlValidation, orch_jsValidation, orch_depValidation]
  exact sevStep_fold_max _ _ _ (htmlValidate_sev _) (jsValidate_sev _) (depValidate_sev _ _ _)

/-- A concrete five-field content for the C4 witness. -/
def contentC4 : GenContent :=
  { title := "t", description := "d", mainContent := "<div id='m'>x</div>"
    customCss := "", customJs := "L.map('m')" }

/-- Witness for C4 at a concrete content (the hypotheses hold by `rfl`). -/
theorem c4_witness :
    (validateGeneratedContent contentC4).overallSeverity =
      specMaxSev
        (specMaxSev (validateGeneratedContent contentC4).htmlValidation.severity
          (validateGeneratedContent contentC4).jsValidation.severity)
        (validateGeneratedContent contentC4).dependencyValidation.severity :=
  c4_overall_severity_max contentC4 rfl rfl rfl

/-- C10: the orchestrator's result is internally consistent: `needs_fixing`
iff `total_issues > 0`, `total_issues` is the length of `issues`, and
`issues` concatenates the successful analyzers' issue lists in the fixed
order HTML structure, JavaScript, dependencies. -/
theorem c10_aggregate_consistency (c : GenContent) :
    ((validateGeneratedContent c).needsFixing = true ↔
      0 < (validateGeneratedContent c).totalIssues) ∧
    (validateGeneratedContent c).totalIssues = (validateGeneratedContent c).issues.length ∧
    (validateGeneratedContent c).issues =
      (if (validateGeneratedContent c).htmlValidation.success
        then (validateGeneratedContent c).htmlValidation.issues else [])
      ++ (if (validateGeneratedContent c).jsValidation.success
        then (validateGeneratedContent c).jsValidation.issues else [])
      ++ (if (validateGeneratedContent c).dependencyValidation.success
        then (validateGeneratedContent c).dependencyValidation.issues else []) := by
  rw [orch_htmlValidation, orch_jsValidation, orch_depValidation]
  unfold validateGeneratedContent
  simp only [htmlValidate_success, jsValidate_success, depValidate_success, if_true,
    decide_eq_true_eq]
  exact ⟨trivial, trivial, trivial⟩

/-! ## C3: the repair agent's acceptance condition -/

/-- `attemptFixes` at an exhausted attempt budget. -/
theorem attemptFixes_zero (f : Nat → Option RawContent) (idx : Nat) (vr : VResult)
    (h : GenContent) : attemptFixes f idx 0 vr h = none := rfl

/-- One unfolding step of `attemptFixes`. -/
theorem attemptFixes_succ (f : Nat → Option RawContent) (idx rem : Nat) (vr : VResult)
    (h : GenContent) :
    attemptFixes f idx (rem + 1) vr h =
      match f idx with
      | none => attemptFixes f (idx + 1) rem vr h
      | some raw =>
        if (validateGeneratedContent (applyDefaultsFrom raw h)).totalIssues < vr.totalIssues
        then some (applyDefaultsFrom raw h)
        else attemptFixes f (idx + 1) rem (validateGeneratedContent (applyDefaultsFrom raw h))
          (applyDefaultsFrom raw h) := rfl

/-- A full five-field response object carrying exactly the fields of `c`. -/
def rawOf (c : GenContent) : RawContent :=
  { title := some c.title, description := some c.description, mainContent := some c.mainContent
    customCss := some c.customCss, customJs := some c.customJs }

/-- Defaulting a full response object is the identity. -/
theorem applyDefaultsFrom_rawOf (h h' : GenContent) :
    applyDefaultsFrom (rawOf h) h' = h := rfl

/-- A model that always returns its input verbatim never yields an accepted
fix: both attempts re-validate to the same issue count, which is not a
strict decrease, so `validate_and_fix` reports `content_fixed = false`. -/
theorem validateAndFix_identical_not_fixed (h : GenContent) :
    (validateAndFix true (fun _ => some (rawOf h)) h).contentFixed = false := by
  have hfix : attemptFixes (fun _ => some (rawOf h)) 0 2 (validateGeneratedContent h) h
      = none := by
    rw [attemptFixes_succ]
    dsimp only
    rw [applyDefaultsFrom_rawOf, if_neg (lt_irrefl _), attemptFixes_succ]
    dsimp only
    rw [applyDefaultsFrom_rawOf, if_neg (lt_irrefl _), attemptFixes_zero]
  unfold validateAndFix
  dsimp only
  rw [show maxFixAttempts = 2 from rfl, hfix]
  split <;> rfl

/-- Characterization of an accepted fix over the 2-attempt loop: the
acceptance comparison's baseline is `vr` on the first attempt, and the
rejected first fix's own validation on the second. -/
theorem attemptFixes_accept_characterization (f : Nat → Option RawContent) (vr : VResult)
    (h c : GenContent) (hacc : attemptFixes f 0 2 vr h = some c) :
    ((∃ r0, f 0 = some r0 ∧ c = applyDefaultsFrom r0 h ∧
        (validateGeneratedContent c).totalIssues < vr.totalIssues) ∨
     (∃ r1, f 1 = some r1 ∧
       ((f 0 = none ∧ c = applyDefaultsFrom r1 h ∧
           (validateGeneratedContent c).totalIssues < vr.totalIssues) ∨
        (∃ r0, f 0 = some r0 ∧
          ¬ (validateGeneratedContent (applyDefaultsFrom r0 h)).totalIssues < vr.totalIssues ∧
          c = applyDefaultsFrom r1 (applyDefaultsFrom r0 h) ∧
          (validateGeneratedContent c).totalIssues <
            (validateGeneratedContent (applyDefaultsFrom r0 h)).totalIssues)))) := by
  rw [attemptFixes_succ] at hacc
  cases hf0 : f 0 with
  | none =>
    rw [hf0] at hacc
    dsimp only at hacc
    rw [attemptFixes_succ] at hacc
    cases hf1 : f 1 with
    | none =>
      rw [hf1] at hacc
      dsimp only at hacc
      rw [attemptFixes_zero] at hacc
      exact absurd hacc (by simp)
    | some r1 =>
      rw [hf1] at hacc
      dsimp only at hacc
      split at hacc
      · right
        have hc : c = applyDefaultsFrom r1 h := (Option.some.inj hacc).symm
        subst hc
        exact ⟨r1, rfl, Or.inl ⟨rfl, rfl, by assumption⟩⟩
      · rw [attemptFixes_zero] at hacc
        exact absurd hacc (by simp)
  | some r0 =>
    rw [hf0] at hacc
    dsimp only at hacc
    split at hacc
    · left
      have hc : c = applyDefaultsFrom r0 h := (Option.some.inj hacc).symm
      subst hc
      exact ⟨r0, rfl, rfl, by assumption⟩
    · rw [attemptFixes_succ] at hacc
      cases hf1 : f 1 with
      | none =>
        rw [hf1] at hacc
        dsimp only at hacc
        rw [attemptFixes_zero] at hacc
        exact absurd hacc (by simp)
      | some r1 =>
        rw [hf1] at hacc
        dsimp only at hacc
        split at hacc
        · right
          have hc : c = applyDefaultsFrom r1 (applyDefaultsFrom r0 h) :=
            (Option.some.inj hacc).symm
          subst hc
          exact ⟨r1, rfl, Or.inr ⟨r0, rfl, by assumption, rfl, by assumption⟩⟩
        · rw [attemptFixes_zero] at hacc
          exact absurd hacc (by simp)

/-- Original content for the C3 counterexample: one issue (jQuery usage). -/
def contentRepairO : GenContent :=
  { title := "t", description := "d", mainContent := "", customCss := "", customJs := "$(x)" }

/-- First model response: three issues (unmatched brace, unmatched bracket,
jQuery usage) - rejected, but it becomes the new baseline. -/
def contentRepairFix1 : GenContent := { contentRepairO with customJs := "$(x)\x7b[" }

/-- Second model response: two issues (unmatched brace, jQuery usage) -
strictly fewer than the rebased baseline of three, so it is accepted,
although it has more issues than the original's one. -/
def contentRepairFix2 : GenContent := { contentRepairO with customJs := "$(x)\x7b" }

/-- The mock model responses for the C3 counterexample. -/
def fixSeqC3 : Nat → Option RawContent :=
  fun n => if n = 0 then some (rawOf contentRepairFix1)
    else if n = 1 then some (rawOf contentRepairFix2) else none

set_option maxRecDepth 8000 in
set_option maxHeartbeats 4000000 in
/-- C3 counterexample: the repair agent accepts a fix whose total_issues
(2) is NOT strictly less than the original content's total_issues (1),
because the second attempt is compared against the rejected first fix (3
issues), not the original. -/
theorem c3_counterexample :
    (validateAndFix true fixSeqC3 contentRepairO).contentFixed = true ∧
    (validateGeneratedContent contentRepairO).totalIssues = 1 ∧
    ((validateAndFix true fixSeqC3 contentRepairO).finalValidation.map
      (fun v => v.totalIssues)) = some 2 ∧
    ¬ (((validateAndFix true fixSeqC3 contentRepairO).finalValidation.map
      (fun v => v.totalIssues)).getD 0 < (validateGeneratedContent contentRepairO).totalIssues)
    := by decide

/-- C3 (amended): a fix is accepted only if its issue count strictly
decreases relative to the content submitted for that attempt - the
original for the first attempt, the rejected first fix for the second - so
an accepted fix may carry more issues than the original; and a model that
returns content identical to its input on every attempt yields
`content_fixed = false` after the attempt cap of 2. -/
theorem c3_repair_acceptance :
    (∀ h : GenContent,
      (validateAndFix true (fun _ => some (rawOf h)) h).contentFixed = false) ∧
    (∀ (f : Nat → Option RawContent) (vr : VResult) (h c : GenContent),
      attemptFixes f 0 2 vr h = some c →
      ((∃ r0, f 0 = some r0 ∧ c = applyDefaultsFrom r0 h ∧
          (validateGeneratedContent c).totalIssues < vr.totalIssues) ∨
       (∃ r1, f 1 = some r1 ∧
         ((f 0 = none ∧ c = applyDefaultsFrom r1 h ∧
             (validateGeneratedContent c).totalIssues < vr.totalIssues) ∨
          (∃ r0, f 0 = some r0 ∧
            ¬ (validateGeneratedContent (applyDefaultsFrom r0 h)).totalIssues < vr.totalIssues ∧
            c = applyDefaultsFrom r1 (applyDefaultsFrom r0 h) ∧
            (validateGeneratedContent c).totalIssues <
              (validateGeneratedContent (applyDefaultsFrom r0 h)).totalIssues))))) :=
  ⟨validateAndFix_identical_not_fixed, attemptFixes_accept_characterization⟩

/-! ## C9: the URL extractor on a single fetch literal -/

/-- Input text whose only URL-like occurrence is the fetch literal. -/
def c9Input : String := "fetch('https://api.example.com/search?x=1')"

set_option maxRecDepth 4000 in
/-- C9: on text containing only `fetch('https://api.example.com/search?x=1')`,
the extractor yields exactly one URL, equal to that string (pattern
matching, the likely-URL filter and deduplication included). -/
theorem c9_extractor_single_url :
    (extractUrlsFromContent c9Input).map (fun u => u.url)
      = ["https://api.example.com/search?x=1"] := by decide

/-! ## C5: tool execute boundaries -/

/-- C5 counterexample: an internal failure of the enumerated kind "malformed
response" - a JSON-declared body that fails to parse - is caught but
returned with `success = true` (and `json_parse_error = true`, no error
message), not as `{success: false, error: ...}` as the claim states. -/
theorem c5_counterexample :
    (validateAPIExecute "https://api.example.com/data" "GET"
      (.resp 200 "application/json" none 17)).success = true ∧
    (validateAPIExecute "https://api.example.com/data" "GET"
      (.resp 200 "application/json" none 17)).jsonParseError = true ∧
    (validateAPIExecute "https://api.example.com/data" "GET"
      (.resp 200 "application/json" none 17)).error = none :=
  ⟨rfl, rfl, rfl⟩

/-- `_validate_single_url` exits exceptionally exactly on `urlAborts`, and
then with the `Invalid IPv6 URL` message. -/
theorem validateSingleUrl_error_iff (t : Nat) (url : String) (o : UrlOutcome) (m : String) :
    validateSingleUrl t url o = .error m ↔
      urlAborts url = true ∧ m = "Invalid IPv6 URL" := by
  unfold validateSingleUrl urlAborts
  cases hp : prefAt "/".data url.data with
  | true => simp
  | false =>
    cases hb : invalidIPv6Url url with
    | false =>
      cases hn : (urlNetloc url).isEmpty with
      | true => simp
      | false => cases o <;> simp
    | true => simp [eq_comm]

/-- The per-URL loop of `ValidateHTMLEndpointsTool.execute` aborts
exceptionally iff some extracted URL makes `_validate_single_url` throw,
and then with the `Invalid IPv6 URL` message. -/
theorem partitionUrls_error_iff (t : Nat) (outs : Nat → UrlOutcome) :
    ∀ (us : List UrlInfo) (i : Nat) (m : String),
      partitionUrls t outs i us = .error m ↔
        (m = "Invalid IPv6 URL" ∧ ∃ u ∈ us, urlAborts u.url = true)
  | [], i, m => by simp [partitionUrls]
  | u :: rest, i, m => by
    unfold partitionUrls
    cases hv : validateSingleUrl t u.url (outs i) with
    | error m2 =>
      have h2 := (validateSingleUrl_error_iff t u.url (outs i) m2).1 hv
      dsimp only
      constructor
      · intro he
        injection he with he2
        exact ⟨he2.symm.trans h2.2, u, List.mem_cons_self u rest, h2.1⟩
      · rintro ⟨hm, -⟩
        subst hm
        rw [h2.2]
    | ok v =>
      have hnotu : ¬ urlAborts u.url = true := fun hr => by
        have h3 := (validateSingleUrl_error_iff t u.url (outs i) "Invalid IPv6 URL").2 ⟨hr, rfl⟩
        rw [hv] at h3
        exact Except.noConfusion h3
      dsimp only
      cases hp2 : partitionUrls t outs (i + 1) rest with
      | error m2 =>
        have hrec := (partitionUrls_error_iff t outs rest (i + 1) m2).1 hp2
        dsimp only
        constructor
        · intro he
          injection he with he2
          obtain ⟨hm, w, hw, hws⟩ := hrec
          exact ⟨he2.symm.trans hm, w, List.mem_cons_of_mem u hw, hws⟩
        · rintro ⟨hm, -⟩
          subst hm
          rw [hrec.1]
      | ok p =>
        dsimp only
        constructor
        · intro he
          split at he <;> exact Except.noConfusion he
        · rintro ⟨hm, w, hw, hws⟩
          rcases List.mem_cons.1 hw with rfl | hw2
          · exact absurd hws hnotu
          · have h4 := (partitionUrls_error_iff t outs rest (i + 1) "Invalid IPv6 URL").2
              ⟨rfl, w, hw2, hws⟩
            rw [hp2] at h4
            exact Except.noConfusion h4

/-- C5 (amended): no tool's `execute` raises past its boundary except the
HTML-endpoint validator, whose `urlparse` call throws
`ValueError("Invalid IPv6 URL")` on an extracted URL with a
bracket-mismatched authority; the catch-all converts that to
`{success: false, error: "Invalid IPv6 URL"}`, and `success = false`
happens exactly then.  Failures that abort the operation - provider
exceptions, timeouts, request errors, catalog misconfiguration - come back
as `success = false` with an error message; but a malformed JSON body in
the endpoint validator is flagged inside a `success = true` result, and
the HTML-endpoint validator reports per-URL network failures inside a
`success = true` result. -/
theorem c5_execute_boundaries :
    (∀ (q : String) (l : Nat) (o : SearchOutcome),
      ((webSearchExecute q l o).success = false ↔ ∃ m, o = .serr m) ∧
      ((webSearchExecute q l o).success = false →
        ∃ m, (webSearchExecute q l o).error = some m)) ∧
    (∀ (u mth : String) (o : APIOutcome),
      ((validateAPIExecute u mth o).success = false ↔
        (o = .timeout ∨ ∃ m, o = .reqExn m)) ∧
      ((validateAPIExecute u mth o).success = false →
        (validateAPIExecute u mth o).isAccessible = false ∧
          ∃ m, (validateAPIExecute u mth o).error = some m)) ∧
    (∀ (c : String) (bbox : Option (List String)) (l : Nat) (env : StacEnv),
      (fetchStacExecute c bbox l env).success = false →
        ∃ m, (fetchStacExecute c bbox l env).error = some m) ∧
    (∀ (t : Nat) (h j : String) (outs : Nat → UrlOutcome),
      ((htmlEndpointsExecute t h j outs).success = false ↔
        ∃ u ∈ extractUrlsFromContent (h ++ "\n" ++ j), urlAborts u.url = true) ∧
      ((htmlEndpointsExecute t h j outs).success = false →
        (htmlEndpointsExecute t h j outs).error = some "Invalid IPv6 URL")) := by
  refine ⟨?_, ?_, ?_, ?_⟩
  · intro q l o
    cases o <;> simp [webSearchExecute]
  · intro u mth o
    cases o with
    | timeout => simp [validateAPIExecute]
    | reqExn m => simp [validateAPIExecute]
    | resp status ct body size =>
      have hs : (validateAPIExecute u mth (.resp status ct body size)).success = true := by
        unfold validateAPIExecute
        dsimp only
        split
        · cases body <;> rfl
        · rfl
      rw [hs]
      constructor
      · constructor
        · intro hfalse; exact absurd hfalse (by simp)
        · intro hor; rcases hor with h | ⟨m, h⟩ <;> exact absurd h (by simp)
      · intro hfalse; exact absurd hfalse (by simp)
  · intro c bbox l env
    cases env with
    | noCatalogs => intro _; exact ⟨_, rfl⟩
    | noSearchUrl => intro _; exact ⟨_, rfl⟩
    | catalog url req =>
      cases req with
      | raised m => intro _; exact ⟨_, rfl⟩
      | resp status features =>
        unfold fetchStacExecute
        dsimp only
        split
        · intro _; exact ⟨_, rfl⟩
        · intro hf; exact absurd hf (by simp)
  · intro t h j outs
    unfold htmlEndpointsExecute
    dsimp only
    cases hl : extractUrlsFromContent (h ++ "\n" ++ j) with
    | nil => simp
    | cons u0 us0 =>
      rw [if_neg (by simp)]
      cases hp : partitionUrls t outs 0 (u0 :: us0) with
      | error m =>
        have hrec := (partitionUrls_error_iff t outs (u0 :: us0) 0 m).1 hp
        dsimp only
        refine ⟨⟨fun _ => hrec.2, fun _ => rfl⟩, fun _ => ?_⟩
        rw [hrec.1]
      | ok p =>
        dsimp only
        refine ⟨⟨fun hfalse => absurd hfalse (by simp), ?_⟩,
          fun hfalse => absurd hfalse (by simp)⟩
        rintro ⟨w, hw, hws⟩
        have h4 := (partitionUrls_error_iff t outs (u0 :: us0) 0 "Invalid IPv6 URL").2
          ⟨rfl, w, hw, hws⟩
        rw [hp] at h4
        exact Except.noConfusion h4

/-! ## Frame lemmas for the REACT loop -/

/-- `_reason_about_next_step` leaves the iteration counter, ready flag and
tool results unchanged, only appends to the reasoning steps, and makes at
most one model call. -/
theorem reasonCore_frame (cfg : AgConfig) (env : AgEnv) (s : AgState) :
    (reasonCore cfg env s).2.iterationsCompleted = s.iterationsCompleted ∧
    (reasonCore cfg env s).2.readyToGenerate = s.readyToGenerate ∧
    (reasonCore cfg env s).2.toolResults = s.toolResults ∧
    (∃ u, (reasonCore cfg env s).2.reasoningSteps = s.reasoningSteps ++ u) ∧
    (reasonCore cfg env s).2.llmCallsMade ≤ s.llmCallsMade + 1 := by
  unfold reasonCore
  split
  · exact ⟨rfl, rfl, rfl, ⟨[], by simp⟩, Nat.le_succ _⟩
  · cases env.reasonOutcomes s.reasonCalls <;> dsimp only
    · exact ⟨rfl, rfl, rfl, ⟨[], by simp⟩, Nat.le_refl _⟩
    · exact ⟨rfl, rfl, rfl, ⟨[], by simp⟩, Nat.le_refl _⟩
    · exact ⟨rfl, rfl, rfl, ⟨_, rfl⟩, Nat.le_refl _⟩

/-- `_execute_tool` touches only the tool-call counter of the state. -/
theorem executeToolD_frame (cfg : AgConfig) (env : AgEnv) (s : AgState) (a : PAction) :
    (executeToolD cfg env s a).2.iterationsCompleted = s.iterationsCompleted ∧
    (executeToolD cfg env s a).2.readyToGenerate = s.readyToGenerate ∧
    (executeToolD cfg env s a).2.toolResults = s.toolResults ∧
    (executeToolD cfg env s a).2.reasoningSteps = s.reasoningSteps ∧
    (executeToolD cfg env s a).2.llmCallsMade = s.llmCallsMade := by
  unfold executeToolD runToolCall
  dsimp only
  repeat' split
  all_goals exact ⟨rfl, rfl, rfl, rfl, rfl⟩

/-- One loop iteration increments the iteration counter by exactly one,
makes at most one model call, and only appends to the two context lists. -/
theorem loopStep_frame (cfg : AgConfig) (env : AgEnv) (s : AgState) :
    (loopStep cfg env s).iterationsCompleted = s.iterationsCompleted + 1 ∧
    (loopStep cfg env s).llmCallsMade ≤ s.llmCallsMade + 1 ∧
    (∃ t, (loopStep cfg env s).toolResults = s.toolResults ++ t) ∧
    (∃ u, (loopStep cfg env s).reasoningSteps = s.reasoningSteps ++ u) := by
  rcases hr : reasonCore cfg env { s with iterationsCompleted := s.iterationsCompleted + 1 }
    with ⟨a, s2⟩
  have hf := reasonCore_frame cfg env { s with iterationsCompleted := s.iterationsCompleted + 1 }
  rw [hr] at hf
  obtain ⟨h1, h2, h3, ⟨u, h4⟩, h5⟩ := hf
  dsimp only at h1 h2 h3 h4 h5
  unfold loopStep
  dsimp only
  rw [hr]
  dsimp only
  split
  · exact ⟨h1, by simpa using h5, ⟨[], by simp [h3]⟩, ⟨u, h4⟩⟩
  · split
    · split
      · rcases hg : executeToolD cfg env s2 a with ⟨res, s3⟩
        have gf := executeToolD_frame cfg env s2 a
        rw [hg] at gf
        obtain ⟨g1, g2, g3, g4, g5⟩ := gf
        dsimp only at g1 g2 g3 g4 g5 ⊢
        refine ⟨by rw [g1, h1], by rw [g5]; simpa using h5,
          ⟨_, by rw [g3, h3]⟩, ⟨u, by rw [g4, h4]⟩⟩
      · exact ⟨h1, by simpa using h5, ⟨[], by simp [h3]⟩, ⟨u, h4⟩⟩
    · exact ⟨h1, by simpa using h5, ⟨[], by simp [h3]⟩, ⟨u, h4⟩⟩

/-- C8: within one execution of the REACT `while` loop, `tool_results` and
`reasoning_steps` are append-only (every later value extends the earlier
one; no element is removed or modified), and once `ready_to_generate` is
true the loop performs no further iterations (so the flag, set at most once
by accepting `generate_final_html`, halts the loop). -/
theorem c8_loop_append_only (cfg : AgConfig) (env : AgEnv) (fuel : Nat) (s : AgState) :
    (∃ t, (reactLoop cfg env fuel s).toolResults = s.toolResults ++ t) ∧
    (∃ u, (reactLoop cfg env fuel s).reasoningSteps = s.reasoningSteps ++ u) ∧
    (s.readyToGenerate = true → reactLoop cfg env fuel s = s) := by
  induction fuel generalizing s with
  | zero => exact ⟨⟨[], by simp [reactLoop]⟩, ⟨[], by simp [reactLoop]⟩, fun _ => rfl⟩
  | succ n ih =>
    unfold reactLoop
    split
    · rename_i hguard
      obtain ⟨f1, f2, ⟨t1, f3⟩, ⟨u1, f4⟩⟩ := loopStep_frame cfg env s
      obtain ⟨⟨t2, i1⟩, ⟨u2, i2⟩, _⟩ := ih (loopStep cfg env s)
      refine ⟨⟨t1 ++ t2, by rw [i1, f3, List.append_assoc]⟩,
        ⟨u1 ++ u2, by rw [i2, f4, List.append_assoc]⟩, ?_⟩
      intro hready
      exact absurd hready (by simp [hguard.2.2])
    · exact ⟨⟨[], by simp⟩, ⟨[], by simp⟩, fun _ => rfl⟩

/-- The loop guard keeps both counters within their budgets. -/
theorem reactLoop_counters (cfg : AgConfig) (env : AgEnv) (fuel : Nat) (s : AgState)
    (h1 : s.iterationsCompleted ≤ cfg.maxIterations)
    (h2 : s.llmCallsMade ≤ cfg.maxLLMCalls) :
    (reactLoop cfg env fuel s).iterationsCompleted ≤ cfg.maxIterations ∧
    (reactLoop cfg env fuel s).llmCallsMade ≤ cfg.maxLLMCalls := by
  induction fuel generalizing s with
  | zero => exact ⟨h1, h2⟩
  | succ n ih =>
    unfold reactLoop
    split
    · rename_i hguard
      obtain ⟨f1, f2, _, _⟩ := loopStep_frame cfg env s
      exact ih (loopStep cfg env s) (by omega) (by omega)
    · exact ⟨h1, h2⟩

/-- The degenerate URL validation never reports invalid URLs (see
`validateGeneratedUrls`). -/
theorem validateGeneratedUrls_noInvalid (c : GenContent) :
    (validateGeneratedUrls c).hasInvalidUrls = false := rfl

/-- `_generate_final_html` preserves the iteration counter and makes at
most one counted model call (the unconditional increment of line 772; the
guarded URL-fix increment is unreachable). -/
theorem generateFinalHtml_frame (cfg : AgConfig) (env : AgEnv) (s : AgState) :
    (generateFinalHtml cfg env s).2.iterationsCompleted = s.iterationsCompleted ∧
    (generateFinalHtml cfg env s).2.llmCallsMade ≤ s.llmCallsMade + 1 := by
  unfold generateFinalHtml
  split
  · exact ⟨rfl, Nat.le_succ _⟩
  · cases env.genOutcome with
    | gexn m => exact ⟨rfl, Nat.le_refl _⟩
    | gbadJson m => exact ⟨rfl, Nat.le_refl _⟩
    | gparsed raw =>
      dsimp only
      rw [validateGeneratedUrls_noInvalid]
      constructor
      · split
        · rename_i hcontr; simp at hcontr
        · rfl
      · split
        · rename_i hcontr; simp at hcontr
        · exact Nat.le_refl _

/-- Every result mapping of `_generate_final_html` is structured: failures
carry an error message, successes carry the content. -/
theorem generateFinalHtml_structured (cfg : AgConfig) (env : AgEnv) (s : AgState) :
    ((generateFinalHtml cfg env s).1.success = false →
      ∃ m, (generateFinalHtml cfg env s).1.error = some m) ∧
    ((generateFinalHtml cfg env s).1.success = true →
      (generateFinalHtml cfg env s).1.htmlContent.isSome) := by
  unfold generateFinalHtml
  split
  · exact ⟨fun _ => ⟨_, rfl⟩, fun h => absurd h (by simp)⟩
  · cases env.genOutcome with
    | gexn m => exact ⟨fun _ => ⟨_, rfl⟩, fun h => absurd h (by simp)⟩
    | gbadJson m => exact ⟨fun _ => ⟨_, rfl⟩, fun h => absurd h (by simp)⟩
    | gparsed raw =>
      dsimp only
      exact ⟨fun h => absurd h (by simp), fun _ => rfl⟩

/-- Counter bounds over the whole body of `execute`: iterations stay within
budget, but the model-call counter may exceed its budget by one (the
final-generation increment is not budget-checked). -/
theorem executeBody_counters (cfg : AgConfig) (env : AgEnv) :
    (executeBody cfg env).2.iterationsCompleted ≤ cfg.maxIterations ∧
    (executeBody cfg env).2.llmCallsMade ≤ cfg.maxLLMCalls + 1 := by
  unfold executeBody
  dsimp only
  split
  · exact ⟨Nat.zero_le _, Nat.zero_le _⟩
  · rename_i hguard
    have hmax : 1 ≤ cfg.maxLLMCalls := by
      simp only [Bool.or_eq_true, Bool.not_eq_true', decide_eq_true_eq] at hguard
      push_neg at hguard
      omega
    cases env.planOutcome with
    | pexn m => dsimp only; exact ⟨Nat.zero_le _, by omega⟩
    | punparseable m => dsimp only; exact ⟨Nat.zero_le _, by omega⟩
    | pparsed plan =>
      dsimp only
      cases hsum : plan.summary with
      | none => dsimp only; exact ⟨Nat.zero_le _, by omega⟩
      | some ttl =>
        dsimp only
        obtain ⟨l1, l2⟩ := reactLoop_counters cfg env cfg.maxIterations
          { iterationsCompleted := 0, llmCallsMade := 0 + 1, readyToGenerate := false,
            toolResults := [], reasoningSteps := [], planningCompleted := true,
            implementationPlan := some plan, reasonCalls := 0, toolCalls := 0 }
          (by dsimp only; omega) (by dsimp only; omega)
        obtain ⟨g1, g2⟩ := generateFinalHtml_frame cfg env
          (reactLoop cfg env cfg.maxIterations
            { iterationsCompleted := 0, llmCallsMade := 0 + 1, readyToGenerate := false,
              toolResults := [], reasoningSteps := [], planningCompleted := true,
              implementationPlan := some plan, reasonCalls := 0, toolCalls := 0 })
        exact ⟨by rw [g1]; exact l1, by omega⟩

/-- Every result mapping of `execute`'s body carries an explicit outcome:
failures an error message, successes the generated content. -/
theorem executeBody_structured (cfg : AgConfig) (env : AgEnv) :
    ((executeBody cfg env).1.success = false → ∃ m, (executeBody cfg env).1.error = some m) ∧
    ((executeBody cfg env).1.success = true → (executeBody cfg env).1.htmlContent.isSome) := by
  unfold executeBody
  dsimp only
  split
  · exact ⟨fun _ => ⟨_, rfl⟩, fun h => absurd h (by simp)⟩
  · cases env.planOutcome with
    | pexn m => dsimp only; exact ⟨fun _ => ⟨_, rfl⟩, fun h => absurd h (by simp)⟩
    | punparseable m => dsimp only; exact ⟨fun _ => ⟨_, rfl⟩, fun h => absurd h (by simp)⟩
    | pparsed plan =>
      dsimp only
      cases plan.summary with
      | none => dsimp only; exact ⟨fun _ => ⟨_, rfl⟩, fun h => absurd h (by simp)⟩
      | some ttl => dsimp only; exact generateFinalHtml_structured cfg env _

/-- Final agent state of an execution (the zero state when the store raised
before the body ran). -/
def finalStateOf (e : Except String (ExecResult × AgState)) : AgState :=
  match e with
  | .ok p => p.2
  | .error _ => {}

/-! ## C1: budget bounds at termination -/

/-- C1 (amended): at termination, `iterations_completed ≤ max_iterations`
always holds, and `llm_calls_made ≤ max_llm_calls + 1` - the final
generation's model call increments the counter with no budget check, so the
call budget can be exceeded by exactly one. -/
theorem c1_budget_bounds (cfg : AgConfig) (env : AgEnv) (req : String) (r : ExecResult)
    (st : AgState) (h : executeAgent cfg env req = .ok (r, st)) :
    st.iterationsCompleted ≤ cfg.maxIterations ∧
    st.llmCallsMade ≤ cfg.maxLLMCalls + 1 := by
  unfold executeAgent at h
  split at h
  · cases h
  · injection h with h'
    have h2 := congrArg Prod.snd h'
    dsimp only at h2
    rw [← h2]
    exact executeBody_counters cfg env

/-- Configuration of the C1 counterexample: a call budget of one. -/
def cfgC1x : AgConfig := { maxIterations := 5, maxLLMCalls := 1, clientAvailable := true }

/-- Environment of the C1 counterexample: planning succeeds (one counted
call), the loop is then budget-barred from running, and generation makes
its uncounted-budget call anyway. -/
def envC1x : AgEnv :=
  { planOutcome := .pparsed { summary := some "plan" }
    reasonOutcomes := fun _ => .runparseable "bad json"
    toolOutcomes := fun _ => .ret { success := true }
    genOutcome := .gexn "api error"
    fixResponses := fun _ => none }

/-- C1 counterexample: with `max_llm_calls = 1`, the execution terminates
with `llm_calls_made = 2`, violating `llm_calls_made ≤ max_llm_calls` as
the claim states it. -/
theorem c1_counterexample :
    (finalStateOf (executeAgent cfgC1x envC1x "build a flood map")).llmCallsMade = 2 ∧
    cfgC1x.maxLLMCalls = 1 ∧
    ¬ ((finalStateOf (executeAgent cfgC1x envC1x "build a flood map")).llmCallsMade
        ≤ cfgC1x.maxLLMCalls) := by decide

/-- Configuration for the C1 witness. -/
def cfgC1w : AgConfig := { maxIterations := 2, maxLLMCalls := 4, clientAvailable := true }

/-- Environment for the C1 witness. -/
def envC1w : AgEnv :=
  { planOutcome := .pparsed { summary := some "plan" }
    reasonOutcomes := fun _ => .runparseable "bad json"
    toolOutcomes := fun _ => .ret { success := true }
    genOutcome := .gexn "api error"
    fixResponses := fun _ => none }

/-- Witness for C1 at a concrete run. -/
theorem c1_witness :
    (executeBody cfgC1w envC1w).2.iterationsCompleted ≤ cfgC1w.maxIterations ∧
    (executeBody cfgC1w envC1w).2.llmCallsMade ≤ cfgC1w.maxLLMCalls + 1 :=
  c1_budget_bounds cfgC1w envC1w "req"
    (executeBody cfgC1w envC1w).1 (executeBody cfgC1w envC1w).2 rfl

/-! ## C2: the generation guardrails -/

/-- C2 (amended): whenever the reasoning model's response is received and
parsed, a `generate_final_html` decision is never accepted while the
context holds fewer than 2 successful tool results or no successful
`fetch_stac_sample_data` result - below threshold it is replaced by
`no_action`.  (The exception fallback of `_reason_about_next_step` returns
`generate_final_html` directly and bypasses this guardrail, which is what
the counterexample exhibits.) -/
theorem c2_guardrail_on_parsed (cfg : AgConfig) (env : AgEnv) (s : AgState) (a : PAction)
    (hc : cfg.clientAvailable = true) (hb : s.llmCallsMade < cfg.maxLLMCalls)
    (ho : env.reasonOutcomes s.reasonCalls = .rparsed a)
    (hguard : successfulToolCalls s.toolResults < 2 ∨ stacSuccessCalls s.toolResults = 0) :
    (reasonCore cfg env s).1.action ≠ some "generate_final_html" ∧
    (a.action = some "generate_final_html" →
      (reasonCore cfg env s).1.action = some "no_action") := by
  unfold reasonCore
  rw [if_neg (by simp [hc]; omega)]
  rw [ho]
  dsimp only
  by_cases hga : a.action = some "generate_final_html"
  · rcases hguard with hsc | hst
    · simp [hga, hsc, blockedInsufficient]
    · by_cases hsc : successfulToolCalls s.toolResults < 2
      · simp [hga, hsc, blockedInsufficient]
      · simp [hga, hsc, hst, blockedInsufficient, blockedNoStac]
  · simp [hga]

/-- Configuration of the C2 counterexample. -/
def cfgC2x : AgConfig := { maxIterations := 3, maxLLMCalls := 5, clientAvailable := true }

/-- Environment of the C2 counterexample: the reasoning model call raises,
and the exception fallback returns `generate_final_html` unguarded. -/
def envC2x : AgEnv :=
  { planOutcome := .pparsed { summary := some "plan" }
    reasonOutcomes := fun _ => .rexn "connection reset"
    toolOutcomes := fun _ => .ret { success := true }
    genOutcome := .gexn "api error"
    fixResponses := fun _ => none }

/-- C2 counterexample: the execution sets `ready_to_generate` (and begins
generation) with zero successful tool results and zero successful catalog
fetches in the context. -/
theorem c2_counterexample :
    (finalStateOf (executeAgent cfgC2x envC2x "req")).readyToGenerate = true ∧
    successfulToolCalls (finalStateOf (executeAgent cfgC2x envC2x "req")).toolResults = 0 ∧
    stacSuccessCalls (finalStateOf (executeAgent cfgC2x envC2x "req")).toolResults = 0 := by
  decide

/-- Configuration for the C2 witness. -/
def cfgC2w : AgConfig := { maxIterations := 3, maxLLMCalls := 5, clientAvailable := true }

/-- Environment for the C2 witness: a parsed `generate_final_html` decision
on an empty context. -/
def envC2w : AgEnv :=
  { planOutcome := .pparsed { summary := some "plan" }
    reasonOutcomes := fun _ =>
      .rparsed { action := some "generate_final_html", reasoning := some "done" }
    toolOutcomes := fun _ => .ret { success := true }
    genOutcome := .gexn "api error"
    fixResponses := fun _ => none }

/-- Witness for C2 on an empty context (0 successful calls). -/
theorem c2_witness :
    (reasonCore cfgC2w envC2w {}).1.action ≠ some "generate_final_html" ∧
    ((PAction.mk (some "generate_final_html") (some "done") none).action
        = some "generate_final_html" →
      (reasonCore cfgC2w envC2w {}).1.action = some "no_action") :=
  c2_guardrail_on_parsed cfgC2w envC2w {}
    { action := some "generate_final_html", reasoning := some "done" }
    rfl (by decide) rfl (Or.inl (by decide))

/-! ## C7: unknown tool names are recoverable -/

/-- C7: an action naming a tool absent from the registry yields the
ordinary result `{success: false, error: "Tool '<name>' not found"}`, the
result is observed into `tool_results`, and the iteration completes without
aborting (the ready flag is untouched, so the loop proceeds). -/
theorem c7_unknown_tool (cfg : AgConfig) (env : AgEnv) (s : AgState) (a : PAction) (n : String)
    (ha : a.action = some n)
    (hn : getTool (registryNames cfg.enableWebSearch cfg.enableAPIValidation) n = none)
    (hc : cfg.clientAvailable = true) (hb : s.llmCallsMade < cfg.maxLLMCalls)
    (ho : env.reasonOutcomes s.reasonCalls = .rparsed a)
    (hs1 : n ≠ "generate_final_html") (hs2 : n ≠ "no_action") (hs3 : n ≠ "") :
    (executeToolD cfg env s a).1 =
      { success := false, error := some ("Tool '" ++ n ++ "' not found") } ∧
    (loopStep cfg env s).toolResults = s.toolResults ++
      [{ iteration := s.iterationsCompleted + 1, action := a,
         result := { success := false, error := some ("Tool '" ++ n ++ "' not found") } }] ∧
    (loopStep cfg env s).readyToGenerate = s.readyToGenerate := by
  have hexec : ∀ s' : AgState, executeToolD cfg env s' a =
      ({ success := false, error := some ("Tool '" ++ n ++ "' not found") }, s') := by
    intro s'
    unfold executeToolD
    rw [ha]
    dsimp only [Option.getD]
    rw [hn]
  have hreason : reasonCore cfg env { s with iterationsCompleted := s.iterationsCompleted + 1 }
      = (a, { s with
          iterationsCompleted := s.iterationsCompleted + 1
          llmCallsMade := s.llmCallsMade + 1
          reasonCalls := s.reasonCalls + 1
          reasoningSteps := s.reasoningSteps ++
            [{ iteration := s.iterationsCompleted + 1
               reasoning := a.reasoning.getD ""
               actionName := a.action.getD "" }] }) := by
    unfold reasonCore
    rw [if_neg (by simp [hc]; omega)]
    rw [ho]
    dsimp only
    have hbeq : (a.action == some "generate_final_html") = false := by
      simp [ha, hs1]
    rw [hbeq]
    simp only [Bool.false_eq_true, if_false]
  refine ⟨by rw [hexec s], ?_, ?_⟩ <;>
    (unfold loopStep
     dsimp only
     rw [hreason]
     dsimp only
     rw [ha]
     try dsimp only
     rw [show (some n == some "generate_final_html") = false by simpa using hs1]
     simp only [Bool.false_eq_true, if_false]
     try dsimp only
     rw [if_pos (by simp only [Bool.and_eq_true, bne_iff_ne]; exact ⟨hs2, hs3⟩)]
     rw [hexec]
     try dsimp only
     try rfl)

/-- Configuration for the C7 witness (all optional tools enabled). -/
def cfgC7w : AgConfig := { maxIterations := 4, maxLLMCalls := 9, clientAvailable := true }

/-- Environment for the C7 witness: the model picks a nonexistent tool. -/
def envC7w : AgEnv :=
  { planOutcome := .pparsed { summary := some "p" }
    reasonOutcomes := fun _ => .rparsed { action := some "bogus_tool" }
    toolOutcomes := fun _ => .ret { success := true }
    genOutcome := .gexn "x"
    fixResponses := fun _ => none }

/-- Witness for C7 with the unknown tool name `bogus_tool`. -/
theorem c7_witness :
    (executeToolD cfgC7w envC7w {} { action := some "bogus_tool" }).1 =
      { success := false, error := some ("Tool '" ++ "bogus_tool" ++ "' not found") } ∧
    (loopStep cfgC7w envC7w {}).toolResults = ({} : AgState).toolResults ++
      [{ iteration := ({} : AgState).iterationsCompleted + 1
         action := { action := some "bogus_tool" }
         result := { success := false, error := some ("Tool '" ++ "bogus_tool" ++ "' not found") } }] ∧
    (loopStep cfgC7w envC7w {}).readyToGenerate = ({} : AgState).readyToGenerate :=
  c7_unknown_tool cfgC7w envC7w {} { action := some "bogus_tool" } "bogus_tool"
    rfl rfl rfl (by decide) rfl (by decide) (by decide) (by decide)

/-! ## C6: structured results at the caller boundary -/

/-- Configuration of the C6 counterexample: a raising session store. -/
def cfgC6x : AgConfig :=
  { maxIterations := 3, maxLLMCalls := 5, clientAvailable := true, storeOk := false }

/-- Environment of the C6 counterexample. -/
def envC6x : AgEnv :=
  { planOutcome := .pparsed { summary := some "p" }
    reasonOutcomes := fun _ => .runparseable "bad"
    toolOutcomes := fun _ => .ret { success := true }
    genOutcome := .gexn "x"
    fixResponses := fun _ => none }

/-- C6 counterexample: with a raising session store, `execute` propagates a
raw exception to the caller (the first `_save_session` runs before the
`try` block) instead of a structured result. -/
theorem c6_counterexample :
    executeAgent cfgC6x envC6x "req" = .error "session store raised" := rfl

/-- C6 (amended): for every behaviour of the model client and the tools,
provided the session store's writes do not raise, `execute` returns a
mapping with an explicit boolean `success` flag, an error string on
failure, and the generated content on success. -/
theorem c6_structured_result (cfg : AgConfig) (env : AgEnv) (req : String)
    (h : cfg.storeOk = true) :
    ∃ r st, executeAgent cfg env req = .ok (r, st) ∧
      (r.success = false → ∃ m, r.error = some m) ∧
      (r.success = true → r.htmlContent.isSome) := by
  refine ⟨(executeBody cfg env).1, (executeBody cfg env).2, ?_,
    (executeBody_structured cfg env).1, (executeBody_structured cfg env).2⟩
  unfold executeAgent
  rw [h]
  rfl

/-- Configuration for the C6 witness. -/
def cfgC6w : AgConfig := { maxIterations := 3, maxLLMCalls := 5, clientAvailable := true }

/-- Environment for the C6 witness. -/
def envC6w : AgEnv :=
  { planOutcome := .pparsed { summary := some "p" }
    reasonOutcomes := fun _ => .runparseable "bad"
    toolOutcomes := fun _ => .ret { success := true }
    genOutcome := .gexn "x"
    fixResponses := fun _ => none }

/-- Witness for C6 at a concrete working-store run. -/
theorem c6_witness :
    ∃ r st, executeAgent cfgC6w envC6w "req" = .ok (r, st) ∧
      (r.success = false → ∃ m, r.error = some m) ∧
      (r.success = true → r.htmlContent.isSome) :=
  c6_structured_result cfgC6w envC6w "req" rfl
